import Mathlib

/-!
# Verification of `sqlxcache` (topos-ai/sqlxcache)

A shallow embedding of the Go package `sqlxcache`: a memoization layer for
prepared SQL statements in front of a database driver (`sqlx`).  The pool-level
`Cache` keeps two maps (positional / named) from query text to prepared
statement handles; a transaction `Tx` keeps its own two maps of handles
re-bound into the transaction.  The driver (the `sqlx.DB` / `sqlx.Tx`
collaborator) is modelled as a deterministic behaviour plus an explicit
`DriverState` recording a fresh-handle counter and logs of prepare and
execute calls.

The source file contains two versions of the package: an earlier one whose
`Tx` holds no per-transaction cache (embedded here under `TxV1`), and the
later one whose `Tx` memoizes re-bound handles (embedded as `Cache` / `Tx`).
-/

namespace Sqlxcache

/-- Whether a statement was prepared positionally (`Preparex`) or with named
parameters (`PrepareNamed`). -/
inductive PrepKind where
  | positional
  | named
deriving DecidableEq, Repr

/-- A prepared-statement handle, as handed out by the driver: a fresh identity
plus the data that determines its behaviour (kind, the query text it was
prepared from, and whether it has been bound into a transaction). -/
structure Handle where
  id : Nat
  kind : PrepKind
  query : String
  inTx : Bool
deriving DecidableEq, Repr

/-- One driver prepare call (`Preparex` / `PrepareNamed`, possibly the
`Context` variant), with the query text it was given and whether it
succeeded. -/
structure PrepCall where
  kind : PrepKind
  query : String
  ok : Bool
deriving DecidableEq, Repr

/-- Which driver execution primitive a forwarding operation invoked. -/
inductive Method where
  | exec
  | query
  | queryx
  | get
  | select
deriving DecidableEq, Repr

/-- One driver execution call: the primitive used, the handle executed and the
arguments supplied. -/
structure ExecCall where
  method : Method
  handle : Handle
  args : List Nat
deriving DecidableEq, Repr

/-- The mutable state of the driver collaborator: a fresh-handle allocator and
logs of the prepare and execute calls issued so far. -/
structure DriverState where
  nextId : Nat
  prepCalls : List PrepCall
  execLog : List ExecCall
deriving DecidableEq, Repr

/-- The deterministic behaviour of the driver collaborator.  `prepFail q`
returns `some e` when preparing `q` positionally fails with error `e`;
`run` gives the result of executing a statement (identified by its kind,
transaction-boundness and query text) with given arguments. -/
structure Driver where
  prepFail : String → Option String
  prepNamedFail : String → Option String
  beginFail : Option String
  commitFail : Option String
  rollbackFail : Option String
  closeFail : Option String
  run : Method → PrepKind → Bool → String → List Nat → Except String Nat

/-- A cancellation context passed to the `*Context` variants. -/
structure Context where
  canceled : Bool
deriving DecidableEq, Repr

/-- Driver positional prepare honoring a context (`PreparexContext`): a
canceled context makes the round-trip fail with a cancellation error. -/
def Driver.prepFailCtx (d : Driver) (ctx : Context) (q : String) : Option String :=
  if ctx.canceled then some "context canceled" else d.prepFail q

/-- Driver named prepare honoring a context (`PrepareNamedContext`). -/
def Driver.prepNamedFailCtx (d : Driver) (ctx : Context) (q : String) : Option String :=
  if ctx.canceled then some "context canceled" else d.prepNamedFail q

/-- Association-list lookup, modelling Go map indexing `m[query]`. -/
def alookup (q : String) : List (String × Handle) → Option Handle
  | [] => none
  | (k, v) :: rest => if k = q then some v else alookup q rest

@[simp] theorem alookup_nil (q : String) : alookup q [] = none := rfl

@[simp] theorem alookup_cons (q k : String) (v : Handle) (l : List (String × Handle)) :
    alookup q ((k, v) :: l) = if k = q then some v else alookup q l := rfl

/-- The pool-level statement cache (`type Cache struct`): two maps from query
text to prepared handles, one per namespace.  The two `sync.Mutex` fields make
each resolution operation atomic; the embedding therefore treats each
resolution as one atomic step. -/
structure Cache where
  stmts : List (String × Handle)
  namedStmts : List (String × Handle)
deriving DecidableEq, Repr

/-- `New`: a cache with both maps empty. -/
def Cache.new : Cache := ⟨[], []⟩

/-- `Cache.stmt`: under the positional lock, return the cached handle for
`query` if present; otherwise call `db.Preparex(query)`, and on success store
the new handle under `query` and return it. -/
def Cache.stmt (d : Driver) (c : Cache) (ds : DriverState) (query : String) :
    Except String Handle × Cache × DriverState :=
  match alookup query c.stmts with
  | some value => (.ok value, c, ds)
  | none =>
    match d.prepFail query with
    | some e =>
      (.error e, c,
        { ds with prepCalls := ds.prepCalls ++ [⟨.positional, query, false⟩] })
    | none =>
      let h : Handle := ⟨ds.nextId, .positional, query, false⟩
      (.ok h, { c with stmts := (query, h) :: c.stmts },
        { ds with nextId := ds.nextId + 1,
                  prepCalls := ds.prepCalls ++ [⟨.positional, query, true⟩] })

/-- `Cache.stmtContext`: as `Cache.stmt` but the driver round-trip is
`db.PreparexContext(ctx, query)`, which honors cancellation. -/
def Cache.stmtContext (d : Driver) (ctx : Context) (c : Cache) (ds : DriverState)
    (query : String) : Except String Handle × Cache × DriverState :=
  match alookup query c.stmts with
  | some value => (.ok value, c, ds)
  | none =>
    match d.prepFailCtx ctx query with
    | some e =>
      (.error e, c,
        { ds with prepCalls := ds.prepCalls ++ [⟨.positional, query, false⟩] })
    | none =>
      let h : Handle := ⟨ds.nextId, .positional, query, false⟩
      (.ok h, { c with stmts := (query, h) :: c.stmts },
        { ds with nextId := ds.nextId + 1,
                  prepCalls := ds.prepCalls ++ [⟨.positional, query, true⟩] })

/-- `Cache.namedStmt`: under the named lock, return the cached named handle
for `query` if present; otherwise call `db.PrepareNamed(query)`, and on
success store the new handle under `query` and return it. -/
def Cache.namedStmt (d : Driver) (c : Cache) (ds : DriverState) (query : String) :
    Except String Handle × Cache × DriverState :=
  match alookup query c.namedStmts with
  | some value => (.ok value, c, ds)
  | none =>
    match d.prepNamedFail query with
    | some e =>
      (.error e, c,
        { ds with prepCalls := ds.prepCalls ++ [⟨.named, query, false⟩] })
    | none =>
      let h : Handle := ⟨ds.nextId, .named, query, false⟩
      (.ok h, { c with namedStmts := (query, h) :: c.namedStmts },
        { ds with nextId := ds.nextId + 1,
                  prepCalls := ds.prepCalls ++ [⟨.named, query, true⟩] })

/-- `Cache.namedStmtContext`: as `Cache.namedStmt` but via
`db.PrepareNamedContext(ctx, query)`. -/
def Cache.namedStmtContext (d : Driver) (ctx : Context) (c : Cache) (ds : DriverState)
    (query : String) : Except String Handle × Cache × DriverState :=
  match alookup query c.namedStmts with
  | some value => (.ok value, c, ds)
  | none =>
    match d.prepNamedFailCtx ctx query with
    | some e =>
      (.error e, c,
        { ds with prepCalls := ds.prepCalls ++ [⟨.named, query, false⟩] })
    | none =>
      let h : Handle := ⟨ds.nextId, .named, query, false⟩
      (.ok h, { c with namedStmts := (query, h) :: c.namedStmts },
        { ds with nextId := ds.nextId + 1,
                  prepCalls := ds.prepCalls ++ [⟨.named, query, true⟩] })

/-- What a transaction operation returns to its caller: a driver result or
error (Go's `(value, error)` pair collapses to `Except`), or a runtime panic.
`sqlx.Tx.Stmtx` takes an `interface{}` and panics (`"non-statement type
passed to Stmtx"`) when handed anything but a positional statement, so a
panic is a possible caller-visible outcome. -/
inductive Outcome (α : Type) where
  | ok (a : α)
  | err (e : String)
  | panicked
deriving DecidableEq, Repr

/-- Collapse a driver execution result into a caller-visible outcome. -/
def Outcome.ofExcept : Except String Nat → Outcome Nat
  | .ok v => .ok v
  | .error e => .err e

/-- Execute a resolved handle with arguments via one of the driver's
execute/query/get/select primitives: the deterministic result depends on the
statement's kind, transaction-boundness and query text, and the call is
logged. -/
def execute (d : Driver) (m : Method) (h : Handle) (args : List Nat)
    (ds : DriverState) : Except String Nat × DriverState :=
  (d.run m h.kind h.inTx h.query args,
    { ds with execLog := ds.execLog ++ [⟨m, h, args⟩] })

/-- `sqlx.Tx.Stmtx(stmt interface{})`: re-binds an already-prepared
*positional* statement into the transaction, yielding a fresh
transaction-bound handle for the same query.  Its type switch accepts only
`Stmt` / `*Stmt` / `*sql.Stmt`; any other value (such as a `*NamedStmt`)
falls through to `panic`, modelled as `none`. -/
def stmtxBind (h : Handle) (ds : DriverState) : Option (Handle × DriverState) :=
  if h.kind = .positional then
    some (⟨ds.nextId, .positional, h.query, true⟩, { ds with nextId := ds.nextId + 1 })
  else
    none

/-- `sqlx.Tx.NamedStmt(stmt *NamedStmt)`: re-binds a named statement into the
transaction (its parameter is typed, so no type switch); yields a fresh
transaction-bound named handle for the same query. -/
def namedStmtBind (h : Handle) (ds : DriverState) : Handle × DriverState :=
  (⟨ds.nextId, .named, h.query, true⟩, { ds with nextId := ds.nextId + 1 })

/-- The later `type Tx struct`: a back-reference to the pool cache (passed
explicitly here) plus the transaction's own two maps of re-bound handles. -/
structure Tx where
  stmts : List (String × Handle)
  namedStmts : List (String × Handle)
deriving DecidableEq, Repr

/-- A freshly begun transaction: both per-transaction maps empty
(`Cache.Begin` / `Cache.BeginTx`). -/
def Tx.new : Tx := ⟨[], []⟩

/-- `Cache.Begin`: `db.Beginx()`, then wrap the new driver transaction in a
`Tx` with empty caches; the pool cache is untouched. -/
def Cache.Begin (d : Driver) (c : Cache) (ds : DriverState) :
    Except String Tx × Cache × DriverState :=
  match d.beginFail with
  | some e => (.error e, c, ds)
  | none => (.ok Tx.new, c, ds)

/-- `Tx.stmt` (later version): return the transaction's own cached handle for
`query` if present; otherwise resolve at pool level via `Cache.stmt`, re-bind
the pool handle into the transaction with `tx.tx.Stmtx`, store the re-bound
handle in the transaction's map and return it. -/
def Tx.stmt (d : Driver) (c : Cache) (tx : Tx) (ds : DriverState) (query : String) :
    Outcome Handle × Cache × Tx × DriverState :=
  match alookup query tx.stmts with
  | some h => (.ok h, c, tx, ds)
  | none =>
    match Cache.stmt d c ds query with
    | (.error e, c', ds') => (.err e, c', tx, ds')
    | (.ok cachedStmt, c', ds') =>
      match stmtxBind cachedStmt ds' with
      | none => (.panicked, c', tx, ds')
      | some (h, ds'') =>
        (.ok h, c', { tx with stmts := (query, h) :: tx.stmts }, ds'')

/-- `Tx.stmtContext` (later version): as `Tx.stmt` via `Cache.stmtContext`
and `tx.tx.StmtxContext`. -/
def Tx.stmtContext (d : Driver) (ctx : Context) (c : Cache) (tx : Tx)
    (ds : DriverState) (query : String) : Outcome Handle × Cache × Tx × DriverState :=
  match alookup query tx.stmts with
  | some h => (.ok h, c, tx, ds)
  | none =>
    match Cache.stmtContext d ctx c ds query with
    | (.error e, c', ds') => (.err e, c', tx, ds')
    | (.ok cachedStmt, c', ds') =>
      match stmtxBind cachedStmt ds' with
      | none => (.panicked, c', tx, ds')
      | some (h, ds'') =>
        (.ok h, c', { tx with stmts := (query, h) :: tx.stmts }, ds'')

/-- `Tx.namedStmt` (later version): return the transaction's own cached named
handle for `query` if present; otherwise resolve at pool level via
`Cache.namedStmt`, re-bind with `tx.tx.NamedStmt`, store and return. -/
def Tx.namedStmt (d : Driver) (c : Cache) (tx : Tx) (ds : DriverState) (query : String) :
    Outcome Handle × Cache × Tx × DriverState :=
  match alookup query tx.namedStmts with
  | some h => (.ok h, c, tx, ds)
  | none =>
    match Cache.namedStmt d c ds query with
    | (.error e, c', ds') => (.err e, c', tx, ds')
    | (.ok cachedNamedStmt, c', ds') =>
      let (h, ds'') := namedStmtBind cachedNamedStmt ds'
      (.ok h, c', { tx with namedStmts := (query, h) :: tx.namedStmts }, ds'')

/-- `Tx.namedStmtContext` (later version): as `Tx.namedStmt` via
`Cache.namedStmtContext` and `tx.tx.NamedStmtContext`. -/
def Tx.namedStmtContext (d : Driver) (ctx : Context) (c : Cache) (tx : Tx)
    (ds : DriverState) (query : String) : Outcome Handle × Cache × Tx × DriverState :=
  match alookup query tx.namedStmts with
  | some h => (.ok h, c, tx, ds)
  | none =>
    match Cache.namedStmtContext d ctx c ds query with
    | (.error e, c', ds') => (.err e, c', tx, ds')
    | (.ok cachedNamedStmt, c', ds') =>
      let (h, ds'') := namedStmtBind cachedNamedStmt ds'
      (.ok h, c', { tx with namedStmts := (query, h) :: tx.namedStmts }, ds'')

/-- A `*sql.Row` / `*sqlx.Row` value: the single-row query methods
(`QueryRow`, `QueryRowx`, …) defer execution to the returned row object, so a
row is just the statement handle paired with the arguments it will be run
with. -/
structure Row where
  handle : Handle
  args : List Nat
deriving DecidableEq, Repr

/-! ## Forwarding operations of the later `Tx` -/

/-- `Tx.Exec` (later version): resolve via `Tx.stmt`, then `stmt.Exec(args…)`
on exactly the resolved handle. -/
def Tx.Exec (d : Driver) (c : Cache) (tx : Tx) (ds : DriverState) (query : String)
    (args : List Nat) : Outcome Nat × Cache × Tx × DriverState :=
  match Tx.stmt d c tx ds query with
  | (.ok stmt, c', tx', ds') =>
    let (r, ds'') := execute d .exec stmt args ds'
    (Outcome.ofExcept r, c', tx', ds'')
  | (.err e, c', tx', ds') => (.err e, c', tx', ds')
  | (.panicked, c', tx', ds') => (.panicked, c', tx', ds')

/-- `Tx.ExecContext` (later version): resolve via `Tx.stmtContext`, then
`stmt.ExecContext(ctx, args…)` on the resolved handle. -/
def Tx.ExecContext (d : Driver) (ctx : Context) (c : Cache) (tx : Tx)
    (ds : DriverState) (query : String) (args : List Nat) :
    Outcome Nat × Cache × Tx × DriverState :=
  match Tx.stmtContext d ctx c tx ds query with
  | (.ok stmt, c', tx', ds') =>
    let (r, ds'') := execute d .exec stmt args ds'
    (Outcome.ofExcept r, c', tx', ds'')
  | (.err e, c', tx', ds') => (.err e, c', tx', ds')
  | (.panicked, c', tx', ds') => (.panicked, c', tx', ds')

/-- `Tx.Query` (later version): resolve via `Tx.stmt`, then
`stmt.Query(args…)`. -/
def Tx.Query (d : Driver) (c : Cache) (tx : Tx) (ds : DriverState) (query : String)
    (args : List Nat) : Outcome Nat × Cache × Tx × DriverState :=
  match Tx.stmt d c tx ds query with
  | (.ok stmt, c', tx', ds') =>
    let (r, ds'') := execute d .query stmt args ds'
    (Outcome.ofExcept r, c', tx', ds'')
  | (.err e, c', tx', ds') => (.err e, c', tx', ds')
  | (.panicked, c', tx', ds') => (.panicked, c', tx', ds')

/-- `Tx.Queryx` (later version): resolve via `Tx.stmt`, then
`stmt.Queryx(args…)`. -/
def Tx.Queryx (d : Driver) (c : Cache) (tx : Tx) (ds : DriverState) (query : String)
    (args : List Nat) : Outcome Nat × Cache × Tx × DriverState :=
  match Tx.stmt d c tx ds query with
  | (.ok stmt, c', tx', ds') =>
    let (r, ds'') := execute d .queryx stmt args ds'
    (Outcome.ofExcept r, c', tx', ds'')
  | (.err e, c', tx', ds') => (.err e, c', tx', ds')
  | (.panicked, c', tx', ds') => (.panicked, c', tx', ds')

/-- `Tx.Get` (later version): resolve via `Tx.stmt`, then
`stmt.Get(dest, args…)`. -/
def Tx.Get (d : Driver) (c : Cache) (tx : Tx) (ds : DriverState) (query : String)
    (args : List Nat) : Outcome Nat × Cache × Tx × DriverState :=
  match Tx.stmt d c tx ds query with
  | (.ok stmt, c', tx', ds') =>
    let (r, ds'') := execute d .get stmt args ds'
    (Outcome.ofExcept r, c', tx', ds'')
  | (.err e, c', tx', ds') => (.err e, c', tx', ds')
  | (.panicked, c', tx', ds') => (.panicked, c', tx', ds')

/-- `Tx.Select` (later version): resolve via `Tx.stmt`, then
`stmt.Select(dest, args…)`. -/
def Tx.Select (d : Driver) (c : Cache) (tx : Tx) (ds : DriverState) (query : String)
    (args : List Nat) : Outcome Nat × Cache × Tx × DriverState :=
  match Tx.stmt d c tx ds query with
  | (.ok stmt, c', tx', ds') =>
    let (r, ds'') := execute d .select stmt args ds'
    (Outcome.ofExcept r, c', tx', ds'')
  | (.err e, c', tx', ds') => (.err e, c', tx', ds')
  | (.panicked, c', tx', ds') => (.panicked, c', tx', ds')

/-- `Tx.QueryxRow` (later version): resolve via `Tx.stmt`, then return
`(stmt.QueryRowx(args…), nil)` — execution deferred to the row. -/
def Tx.QueryxRow (d : Driver) (c : Cache) (tx : Tx) (ds : DriverState) (query : String)
    (args : List Nat) : Outcome Row × Cache × Tx × DriverState :=
  match Tx.stmt d c tx ds query with
  | (.ok stmt, c', tx', ds') => (.ok ⟨stmt, args⟩, c', tx', ds')
  | (.err e, c', tx', ds') => (.err e, c', tx', ds')
  | (.panicked, c', tx', ds') => (.panicked, c', tx', ds')

/-- `Tx.QueryRowxContext` (later version): resolve via `Tx.stmtContext`, then
return `(stmt.QueryRowxContext(ctx, args…), nil)`. -/
def Tx.QueryRowxContext (d : Driver) (ctx : Context) (c : Cache) (tx : Tx)
    (ds : DriverState) (query : String) (args : List Nat) :
    Outcome Row × Cache × Tx × DriverState :=
  match Tx.stmtContext d ctx c tx ds query with
  | (.ok stmt, c', tx', ds') => (.ok ⟨stmt, args⟩, c', tx', ds')
  | (.err e, c', tx', ds') => (.err e, c', tx', ds')
  | (.panicked, c', tx', ds') => (.panicked, c', tx', ds')

/-- `Tx.NamedExec` (later version): resolve via `Tx.namedStmt`, then
`namedStmt.Exec(arg)` on exactly the resolved handle. -/
def Tx.NamedExec (d : Driver) (c : Cache) (tx : Tx) (ds : DriverState) (query : String)
    (arg : Nat) : Outcome Nat × Cache × Tx × DriverState :=
  match Tx.namedStmt d c tx ds query with
  | (.ok namedStmt, c', tx', ds') =>
    let (r, ds'') := execute d .exec namedStmt [arg] ds'
    (Outcome.ofExcept r, c', tx', ds'')
  | (.err e, c', tx', ds') => (.err e, c', tx', ds')
  | (.panicked, c', tx', ds') => (.panicked, c', tx', ds')

/-- `Tx.NamedQuery` (later version): resolve via `Tx.namedStmt`, then
`namedStmt.Query(arg)`. -/
def Tx.NamedQuery (d : Driver) (c : Cache) (tx : Tx) (ds : DriverState) (query : String)
    (arg : Nat) : Outcome Nat × Cache × Tx × DriverState :=
  match Tx.namedStmt d c tx ds query with
  | (.ok namedStmt, c', tx', ds') =>
    let (r, ds'') := execute d .query namedStmt [arg] ds'
    (Outcome.ofExcept r, c', tx', ds'')
  | (.err e, c', tx', ds') => (.err e, c', tx', ds')
  | (.panicked, c', tx', ds') => (.panicked, c', tx', ds')

/-- `Tx.NamedQueryx` (later version): resolve via `Tx.namedStmt`, then
`namedStmt.Queryx(arg)`. -/
def Tx.NamedQueryx (d : Driver) (c : Cache) (tx : Tx) (ds : DriverState) (query : String)
    (arg : Nat) : Outcome Nat × Cache × Tx × DriverState :=
  match Tx.namedStmt d c tx ds query with
  | (.ok namedStmt, c', tx', ds') =>
    let (r, ds'') := execute d .queryx namedStmt [arg] ds'
    (Outcome.ofExcept r, c', tx', ds'')
  | (.err e, c', tx', ds') => (.err e, c', tx', ds')
  | (.panicked, c', tx', ds') => (.panicked, c', tx', ds')

/-- `Tx.NamedQueryRow` (later version): resolve via `Tx.namedStmt`, then
return `(namedStmt.QueryRow(arg), nil)`. -/
def Tx.NamedQueryRow (d : Driver) (c : Cache) (tx : Tx) (ds : DriverState)
    (query : String) (arg : Nat) : Outcome Row × Cache × Tx × DriverState :=
  match Tx.namedStmt d c tx ds query with
  | (.ok namedStmt, c', tx', ds') => (.ok ⟨namedStmt, [arg]⟩, c', tx', ds')
  | (.err e, c', tx', ds') => (.err e, c', tx', ds')
  | (.panicked, c', tx', ds') => (.panicked, c', tx', ds')

/-- `Tx.NamedQueryRowContext` (later version): resolve via
`Tx.namedStmtContext`, then return `(namedStmt.QueryRowContext(ctx, arg), nil)`. -/
def Tx.NamedQueryRowContext (d : Driver) (ctx : Context) (c : Cache) (tx : Tx)
    (ds : DriverState) (query : String) (arg : Nat) :
    Outcome Row × Cache × Tx × DriverState :=
  match Tx.namedStmtContext d ctx c tx ds query with
  | (.ok namedStmt, c', tx', ds') => (.ok ⟨namedStmt, [arg]⟩, c', tx', ds')
  | (.err e, c', tx', ds') => (.err e, c', tx', ds')
  | (.panicked, c', tx', ds') => (.panicked, c', tx', ds')

/-- `Tx.NamedGet` (later version): resolve via `Tx.namedStmt`, then execute
`tx.tx.NamedStmt(namedStmt).Get(dest, arg)` — the already-transaction-bound
resolved handle is re-bound into the transaction a second time and the fresh
re-bound copy is what gets executed. -/
def Tx.NamedGet (d : Driver) (c : Cache) (tx : Tx) (ds : DriverState) (query : String)
    (arg : Nat) : Outcome Nat × Cache × Tx × DriverState :=
  match Tx.namedStmt d c tx ds query with
  | (.ok namedStmt, c', tx', ds') =>
    let (h, ds'') := namedStmtBind namedStmt ds'
    let (r, ds''') := execute d .get h [arg] ds''
    (Outcome.ofExcept r, c', tx', ds''')
  | (.err e, c', tx', ds') => (.err e, c', tx', ds')
  | (.panicked, c', tx', ds') => (.panicked, c', tx', ds')

/-- `Tx.NamedGetContext` (later version): as `Tx.NamedGet` via
`Tx.namedStmtContext` and `tx.tx.NamedStmtContext(ctx, namedStmt)` — again a
second re-bind of the resolved handle. -/
def Tx.NamedGetContext (d : Driver) (ctx : Context) (c : Cache) (tx : Tx)
    (ds : DriverState) (query : String) (arg : Nat) :
    Outcome Nat × Cache × Tx × DriverState :=
  match Tx.namedStmtContext d ctx c tx ds query with
  | (.ok namedStmt, c', tx', ds') =>
    let (h, ds'') := namedStmtBind namedStmt ds'
    let (r, ds''') := execute d .get h [arg] ds''
    (Outcome.ofExcept r, c', tx', ds''')
  | (.err e, c', tx', ds') => (.err e, c', tx', ds')
  | (.panicked, c', tx', ds') => (.panicked, c', tx', ds')

/-- `Tx.NamedSelect` (later version): resolve via `Tx.namedStmt`, then execute
`tx.tx.NamedStmt(namedStmt).Select(dest, arg)` — a second re-bind of the
resolved handle, like `Tx.NamedGet`. -/
def Tx.NamedSelect (d : Driver) (c : Cache) (tx : Tx) (ds : DriverState)
    (query : String) (arg : Nat) : Outcome Nat × Cache × Tx × DriverState :=
  match Tx.namedStmt d c tx ds query with
  | (.ok namedStmt, c', tx', ds') =>
    let (h, ds'') := namedStmtBind namedStmt ds'
    let (r, ds''') := execute d .select h [arg] ds''
    (Outcome.ofExcept r, c', tx', ds''')
  | (.err e, c', tx', ds') => (.err e, c', tx', ds')
  | (.panicked, c', tx', ds') => (.panicked, c', tx', ds')

/-- `Tx.NamedSelectContext` (later version): as `Tx.NamedSelect` via
`Tx.namedStmtContext` and `tx.tx.NamedStmtContext(ctx, namedStmt)`. -/
def Tx.NamedSelectContext (d : Driver) (ctx : Context) (c : Cache) (tx : Tx)
    (ds : DriverState) (query : String) (arg : Nat) :
    Outcome Nat × Cache × Tx × DriverState :=
  match Tx.namedStmtContext d ctx c tx ds query with
  | (.ok namedStmt, c', tx', ds') =>
    let (h, ds'') := namedStmtBind namedStmt ds'
    let (r, ds''') := execute d .select h [arg] ds''
    (Outcome.ofExcept r, c', tx', ds''')
  | (.err e, c', tx', ds') => (.err e, c', tx', ds')
  | (.panicked, c', tx', ds') => (.panicked, c', tx', ds')

/-- `Tx.Rollback`: delegates to `tx.tx.Rollback()`; neither the pool caches
nor the transaction's maps are touched. -/
def Tx.Rollback (d : Driver) (c : Cache) (tx : Tx) (ds : DriverState) :
    Except String Unit × Cache × Tx × DriverState :=
  (match d.rollbackFail with
   | some e => .error e
   | none => .ok (), c, tx, ds)

/-- `Tx.Commit`: delegates to `tx.tx.Commit()`; neither the pool caches nor
the transaction's maps are touched. -/
def Tx.Commit (d : Driver) (c : Cache) (tx : Tx) (ds : DriverState) :
    Except String Unit × Cache × Tx × DriverState :=
  (match d.commitFail with
   | some e => .error e
   | none => .ok (), c, tx, ds)

/-- `Cache.Close`: delegates to `c.db.Close()`; the cache maps are not
touched and no cached statement is closed. -/
def Cache.Close (d : Driver) (c : Cache) (ds : DriverState) :
    Except String Unit × Cache × DriverState :=
  (match d.closeFail with
   | some e => .error e
   | none => .ok (), c, ds)

/-! ## Single-row operations of the pool-level `Cache` -/

/-- `Cache.QueryRow`: resolve via `Cache.stmt`, then return
`(stmt.QueryRow(args…), nil)` — a non-nil error only when resolution fails. -/
def Cache.QueryRow (d : Driver) (c : Cache) (ds : DriverState) (query : String)
    (args : List Nat) : Except String Row × Cache × DriverState :=
  match Cache.stmt d c ds query with
  | (.ok stmt, c', ds') => (.ok ⟨stmt, args⟩, c', ds')
  | (.error e, c', ds') => (.error e, c', ds')

/-- `Cache.QueryRowContext`: resolve via `Cache.stmtContext`, then return
`(stmt.QueryRowContext(ctx, args…), nil)`. -/
def Cache.QueryRowContext (d : Driver) (ctx : Context) (c : Cache) (ds : DriverState)
    (query : String) (args : List Nat) : Except String Row × Cache × DriverState :=
  match Cache.stmtContext d ctx c ds query with
  | (.ok stmt, c', ds') => (.ok ⟨stmt, args⟩, c', ds')
  | (.error e, c', ds') => (.error e, c', ds')

/-- `Cache.QueryxRow`: resolve via `Cache.stmt`, then return
`(stmt.QueryRowx(args…), nil)`. -/
def Cache.QueryxRow (d : Driver) (c : Cache) (ds : DriverState) (query : String)
    (args : List Nat) : Except String Row × Cache × DriverState :=
  match Cache.stmt d c ds query with
  | (.ok stmt, c', ds') => (.ok ⟨stmt, args⟩, c', ds')
  | (.error e, c', ds') => (.error e, c', ds')

/-- `Cache.QueryRowxContext`: resolve via `Cache.stmtContext`, then return
`(stmt.QueryRowxContext(ctx, args…), nil)`. -/
def Cache.QueryRowxContext (d : Driver) (ctx : Context) (c : Cache) (ds : DriverState)
    (query : String) (args : List Nat) : Except String Row × Cache × DriverState :=
  match Cache.stmtContext d ctx c ds query with
  | (.ok stmt, c', ds') => (.ok ⟨stmt, args⟩, c', ds')
  | (.error e, c', ds') => (.error e, c', ds')

/-- `Cache.NamedQueryRow`: resolve via `Cache.namedStmt`, then return
`(namedStmt.QueryRow(arg), nil)`. -/
def Cache.NamedQueryRow (d : Driver) (c : Cache) (ds : DriverState) (query : String)
    (arg : Nat) : Except String Row × Cache × DriverState :=
  match Cache.namedStmt d c ds query with
  | (.ok namedStmt, c', ds') => (.ok ⟨namedStmt, [arg]⟩, c', ds')
  | (.error e, c', ds') => (.error e, c', ds')

/-- `Cache.NamedQueryRowContext`: resolve via `Cache.namedStmtContext`, then
return `(namedStmt.QueryRowContext(ctx, arg), nil)`. -/
def Cache.NamedQueryRowContext (d : Driver) (ctx : Context) (c : Cache)
    (ds : DriverState) (query : String) (arg : Nat) :
    Except String Row × Cache × DriverState :=
  match Cache.namedStmtContext d ctx c ds query with
  | (.ok namedStmt, c', ds') => (.ok ⟨namedStmt, [arg]⟩, c', ds')
  | (.error e, c', ds') => (.error e, c', ds')

/-! ## The earlier `Tx` (no per-transaction cache)

The earlier version's `Tx` holds only the back-reference to the `Cache` and
the driver transaction: every operation resolves at pool level and re-binds
the pool handle into the transaction on the spot.  Its operations live in the
`TxV1` namespace. -/

/-- Earlier `Tx.Exec`: `tx.c.stmt(query)`, then `tx.tx.Stmtx(stmt).Exec(args…)`. -/
def TxV1.Exec (d : Driver) (c : Cache) (ds : DriverState) (query : String)
    (args : List Nat) : Outcome Nat × Cache × DriverState :=
  match Cache.stmt d c ds query with
  | (.error e, c', ds') => (.err e, c', ds')
  | (.ok stmt, c', ds') =>
    match stmtxBind stmt ds' with
    | none => (.panicked, c', ds')
    | some (h, ds'') =>
      let (r, ds''') := execute d .exec h args ds''
      (Outcome.ofExcept r, c', ds''')

/-- Earlier `Tx.Query`: `tx.c.stmt(query)`, then `tx.tx.Stmtx(stmt).Query(args…)`. -/
def TxV1.Query (d : Driver) (c : Cache) (ds : DriverState) (query : String)
    (args : List Nat) : Outcome Nat × Cache × DriverState :=
  match Cache.stmt d c ds query with
  | (.error e, c', ds') => (.err e, c', ds')
  | (.ok stmt, c', ds') =>
    match stmtxBind stmt ds' with
    | none => (.panicked, c', ds')
    | some (h, ds'') =>
      let (r, ds''') := execute d .query h args ds''
      (Outcome.ofExcept r, c', ds''')

/-- Earlier `Tx.Queryx`: `tx.c.stmt(query)`, then `tx.tx.Stmtx(stmt).Queryx(args…)`. -/
def TxV1.Queryx (d : Driver) (c : Cache) (ds : DriverState) (query : String)
    (args : List Nat) : Outcome Nat × Cache × DriverState :=
  match Cache.stmt d c ds query with
  | (.error e, c', ds') => (.err e, c', ds')
  | (.ok stmt, c', ds') =>
    match stmtxBind stmt ds' with
    | none => (.panicked, c', ds')
    | some (h, ds'') =>
      let (r, ds''') := execute d .queryx h args ds''
      (Outcome.ofExcept r, c', ds''')

/-- Earlier `Tx.Get`: `tx.c.stmt(query)`, then `tx.tx.Stmtx(stmt).Get(dest, args…)`. -/
def TxV1.Get (d : Driver) (c : Cache) (ds : DriverState) (query : String)
    (args : List Nat) : Outcome Nat × Cache × DriverState :=
  match Cache.stmt d c ds query with
  | (.error e, c', ds') => (.err e, c', ds')
  | (.ok stmt, c', ds') =>
    match stmtxBind stmt ds' with
    | none => (.panicked, c', ds')
    | some (h, ds'') =>
      let (r, ds''') := execute d .get h args ds''
      (Outcome.ofExcept r, c', ds''')

/-- Earlier `Tx.Select`: `tx.c.stmt(query)`, then `tx.tx.Stmtx(stmt).Select(dest, args…)`. -/
def TxV1.Select (d : Driver) (c : Cache) (ds : DriverState) (query : String)
    (args : List Nat) : Outcome Nat × Cache × DriverState :=
  match Cache.stmt d c ds query with
  | (.error e, c', ds') => (.err e, c', ds')
  | (.ok stmt, c', ds') =>
    match stmtxBind stmt ds' with
    | none => (.panicked, c', ds')
    | some (h, ds'') =>
      let (r, ds''') := execute d .select h args ds''
      (Outcome.ofExcept r, c', ds''')

/-- Earlier `Tx.NamedExec`: `tx.c.namedStmt(query)`, then
`tx.tx.NamedStmt(namedStmt).Exec(arg)`. -/
def TxV1.NamedExec (d : Driver) (c : Cache) (ds : DriverState) (query : String)
    (arg : Nat) : Outcome Nat × Cache × DriverState :=
  match Cache.namedStmt d c ds query with
  | (.error e, c', ds') => (.err e, c', ds')
  | (.ok namedStmt, c', ds') =>
    let (h, ds'') := namedStmtBind namedStmt ds'
    let (r, ds''') := execute d .exec h [arg] ds''
    (Outcome.ofExcept r, c', ds''')

/-- Earlier `Tx.NamedQuery`: `tx.c.namedStmt(query)`, then
`tx.tx.Stmtx(namedStmt).Query(arg)` — the *named* handle is passed to the
positional re-bind `Stmtx`, whose type switch does not accept a
`*NamedStmt`. -/
def TxV1.NamedQuery (d : Driver) (c : Cache) (ds : DriverState) (query : String)
    (arg : Nat) : Outcome Nat × Cache × DriverState :=
  match Cache.namedStmt d c ds query with
  | (.error e, c', ds') => (.err e, c', ds')
  | (.ok namedStmt, c', ds') =>
    match stmtxBind namedStmt ds' with
    | none => (.panicked, c', ds')
    | some (h, ds'') =>
      let (r, ds''') := execute d .query h [arg] ds''
      (Outcome.ofExcept r, c', ds''')

/-- Earlier `Tx.NamedQueryx`: `tx.c.namedStmt(query)`, then
`tx.tx.Stmtx(namedStmt).Queryx(arg)` — again the named handle handed to
`Stmtx`. -/
def TxV1.NamedQueryx (d : Driver) (c : Cache) (ds : DriverState) (query : String)
    (arg : Nat) : Outcome Nat × Cache × DriverState :=
  match Cache.namedStmt d c ds query with
  | (.error e, c', ds') => (.err e, c', ds')
  | (.ok namedStmt, c', ds') =>
    match stmtxBind namedStmt ds' with
    | none => (.panicked, c', ds')
    | some (h, ds'') =>
      let (r, ds''') := execute d .queryx h [arg] ds''
      (Outcome.ofExcept r, c', ds''')

/-- Earlier `Tx.GetNamed`: `tx.c.namedStmt(query)`, then
`tx.tx.NamedStmt(namedStmt).Get(dest, arg)`. -/
def TxV1.GetNamed (d : Driver) (c : Cache) (ds : DriverState) (query : String)
    (arg : Nat) : Outcome Nat × Cache × DriverState :=
  match Cache.namedStmt d c ds query with
  | (.error e, c', ds') => (.err e, c', ds')
  | (.ok namedStmt, c', ds') =>
    let (h, ds'') := namedStmtBind namedStmt ds'
    let (r, ds''') := execute d .get h [arg] ds''
    (Outcome.ofExcept r, c', ds''')

/-- Earlier `Tx.NamedSelect`: `tx.c.namedStmt(query)`, then
`tx.tx.NamedStmt(namedStmt).Select(dest, arg)`. -/
def TxV1.NamedSelect (d : Driver) (c : Cache) (ds : DriverState) (query : String)
    (arg : Nat) : Outcome Nat × Cache × DriverState :=
  match Cache.namedStmt d c ds query with
  | (.error e, c', ds') => (.err e, c', ds')
  | (.ok namedStmt, c', ds') =>
    let (h, ds'') := namedStmtBind namedStmt ds'
    let (r, ds''') := execute d .select h [arg] ds''
    (Outcome.ofExcept r, c', ds''')

/-- Earlier `Tx.Rollback`: delegates to `tx.tx.Rollback()`. -/
def TxV1.Rollback (d : Driver) (c : Cache) (ds : DriverState) :
    Except String Unit × Cache × DriverState :=
  (match d.rollbackFail with
   | some e => .error e
   | none => .ok (), c, ds)

/-- Earlier `Tx.Commit`: delegates to `tx.tx.Commit()`. -/
def TxV1.Commit (d : Driver) (c : Cache) (ds : DriverState) :
    Except String Unit × Cache × DriverState :=
  (match d.commitFail with
   | some e => .error e
   | none => .ok (), c, ds)

/-! ## Observational comparison of the two `Tx` versions -/

/-- One caller-level operation on a transaction, in the surface common to the
two `Tx` versions (the earlier version names the named get `GetNamed`, the
later `NamedGet`). -/
inductive TxOp where
  | exec (q : String) (args : List Nat)
  | query (q : String) (args : List Nat)
  | queryx (q : String) (args : List Nat)
  | get (q : String) (args : List Nat)
  | select (q : String) (args : List Nat)
  | namedExec (q : String) (arg : Nat)
  | namedQuery (q : String) (arg : Nat)
  | namedQueryx (q : String) (arg : Nat)
  | namedGet (q : String) (arg : Nat)
  | namedSelect (q : String) (arg : Nat)
  | commit
  | rollback
deriving DecidableEq, Repr

/-- Fold a commit/rollback result into the common observation type. -/
def Outcome.ofUnit : Except String Unit → Outcome Nat
  | .ok () => .ok 0
  | .error e => .err e

/-- Run one operation against the earlier `Tx` version: caller-visible
observation plus the evolved pool cache and driver state. -/
def TxV1.runOp (d : Driver) (c : Cache) (ds : DriverState) :
    TxOp → Outcome Nat × Cache × DriverState
  | .exec q args => TxV1.Exec d c ds q args
  | .query q args => TxV1.Query d c ds q args
  | .queryx q args => TxV1.Queryx d c ds q args
  | .get q args => TxV1.Get d c ds q args
  | .select q args => TxV1.Select d c ds q args
  | .namedExec q arg => TxV1.NamedExec d c ds q arg
  | .namedQuery q arg => TxV1.NamedQuery d c ds q arg
  | .namedQueryx q arg => TxV1.NamedQueryx d c ds q arg
  | .namedGet q arg => TxV1.GetNamed d c ds q arg
  | .namedSelect q arg => TxV1.NamedSelect d c ds q arg
  | .commit =>
    (Outcome.ofUnit (TxV1.Commit d c ds).1, (TxV1.Commit d c ds).2.1,
      (TxV1.Commit d c ds).2.2)
  | .rollback =>
    (Outcome.ofUnit (TxV1.Rollback d c ds).1, (TxV1.Rollback d c ds).2.1,
      (TxV1.Rollback d c ds).2.2)

/-- Run one operation against the later `Tx` version. -/
def Tx.runOp (d : Driver) (c : Cache) (tx : Tx) (ds : DriverState) :
    TxOp → Outcome Nat × Cache × Tx × DriverState
  | .exec q args => Tx.Exec d c tx ds q args
  | .query q args => Tx.Query d c tx ds q args
  | .queryx q args => Tx.Queryx d c tx ds q args
  | .get q args => Tx.Get d c tx ds q args
  | .select q args => Tx.Select d c tx ds q args
  | .namedExec q arg => Tx.NamedExec d c tx ds q arg
  | .namedQuery q arg => Tx.NamedQuery d c tx ds q arg
  | .namedQueryx q arg => Tx.NamedQueryx d c tx ds q arg
  | .namedGet q arg => Tx.NamedGet d c tx ds q arg
  | .namedSelect q arg => Tx.NamedSelect d c tx ds q arg
  | .commit =>
    (Outcome.ofUnit (Tx.Commit d c tx ds).1, (Tx.Commit d c tx ds).2.1,
      (Tx.Commit d c tx ds).2.2.1, (Tx.Commit d c tx ds).2.2.2)
  | .rollback =>
    (Outcome.ofUnit (Tx.Rollback d c tx ds).1, (Tx.Rollback d c tx ds).2.1,
      (Tx.Rollback d c tx ds).2.2.1, (Tx.Rollback d c tx ds).2.2.2)

/-- The stream of caller-visible observations of a sequence of operations on
the earlier `Tx` version. -/
def TxV1.runSeq (d : Driver) : List TxOp → Cache → DriverState → List (Outcome Nat)
  | [], _, _ => []
  | op :: ops, c, ds =>
    (TxV1.runOp d c ds op).1 ::
      TxV1.runSeq d ops (TxV1.runOp d c ds op).2.1 (TxV1.runOp d c ds op).2.2

/-- The stream of caller-visible observations of a sequence of operations on
the later `Tx` version. -/
def Tx.runSeq (d : Driver) : List TxOp → Cache → Tx → DriverState → List (Outcome Nat)
  | [], _, _, _ => []
  | op :: ops, c, tx, ds =>
    (Tx.runOp d c tx ds op).1 ::
      Tx.runSeq d ops (Tx.runOp d c tx ds op).2.1 (Tx.runOp d c tx ds op).2.2.1
        (Tx.runOp d c tx ds op).2.2.2

/-! ## Whole-system operational model (for reachability invariants) -/

/-- One operation on a `Cache` together with its begun transactions, each
transaction addressed by its index. -/
inductive SysOp where
  | poolStmt (q : String)
  | poolStmtCtx (ctx : Context) (q : String)
  | poolNamedStmt (q : String)
  | poolNamedStmtCtx (ctx : Context) (q : String)
  | beginTx
  | txStmt (i : Nat) (q : String)
  | txStmtCtx (i : Nat) (ctx : Context) (q : String)
  | txNamedStmt (i : Nat) (q : String)
  | txNamedStmtCtx (i : Nat) (ctx : Context) (q : String)
  | txCommit (i : Nat)
  | txRollback (i : Nat)
deriving DecidableEq, Repr

/-- A `Cache` together with every `Tx` begun from it and the driver state. -/
structure System where
  cache : Cache
  txs : List Tx
  driver : DriverState
deriving DecidableEq, Repr

/-- The initial system: a fresh cache, no transactions, a fresh driver. -/
def System.init : System := ⟨Cache.new, [], ⟨0, [], []⟩⟩

/-- One system step: perform the operation, keep the evolved states, discard
the value returned to the caller.  Operations addressing a transaction index
that does not exist do nothing. -/
def sysStep (d : Driver) (s : System) : SysOp → System
  | .poolStmt q =>
    ⟨(Cache.stmt d s.cache s.driver q).2.1, s.txs,
      (Cache.stmt d s.cache s.driver q).2.2⟩
  | .poolStmtCtx ctx q =>
    ⟨(Cache.stmtContext d ctx s.cache s.driver q).2.1, s.txs,
      (Cache.stmtContext d ctx s.cache s.driver q).2.2⟩
  | .poolNamedStmt q =>
    ⟨(Cache.namedStmt d s.cache s.driver q).2.1, s.txs,
      (Cache.namedStmt d s.cache s.driver q).2.2⟩
  | .poolNamedStmtCtx ctx q =>
    ⟨(Cache.namedStmtContext d ctx s.cache s.driver q).2.1, s.txs,
      (Cache.namedStmtContext d ctx s.cache s.driver q).2.2⟩
  | .beginTx =>
    match Cache.Begin d s.cache s.driver with
    | (.ok tx, c', ds') => ⟨c', s.txs ++ [tx], ds'⟩
    | (.error _, c', ds') => ⟨c', s.txs, ds'⟩
  | .txStmt i q =>
    if h : i < s.txs.length then
      ⟨(Tx.stmt d s.cache s.txs[i] s.driver q).2.1,
        s.txs.set i (Tx.stmt d s.cache s.txs[i] s.driver q).2.2.1,
        (Tx.stmt d s.cache s.txs[i] s.driver q).2.2.2⟩
    else s
  | .txStmtCtx i ctx q =>
    if h : i < s.txs.length then
      ⟨(Tx.stmtContext d ctx s.cache s.txs[i] s.driver q).2.1,
        s.txs.set i (Tx.stmtContext d ctx s.cache s.txs[i] s.driver q).2.2.1,
        (Tx.stmtContext d ctx s.cache s.txs[i] s.driver q).2.2.2⟩
    else s
  | .txNamedStmt i q =>
    if h : i < s.txs.length then
      ⟨(Tx.namedStmt d s.cache s.txs[i] s.driver q).2.1,
        s.txs.set i (Tx.namedStmt d s.cache s.txs[i] s.driver q).2.2.1,
        (Tx.namedStmt d s.cache s.txs[i] s.driver q).2.2.2⟩
    else s
  | .txNamedStmtCtx i ctx q =>
    if h : i < s.txs.length then
      ⟨(Tx.namedStmtContext d ctx s.cache s.txs[i] s.driver q).2.1,
        s.txs.set i (Tx.namedStmtContext d ctx s.cache s.txs[i] s.driver q).2.2.1,
        (Tx.namedStmtContext d ctx s.cache s.txs[i] s.driver q).2.2.2⟩
    else s
  | .txCommit i =>
    if h : i < s.txs.length then
      ⟨(Tx.Commit d s.cache s.txs[i] s.driver).2.1,
        s.txs.set i (Tx.Commit d s.cache s.txs[i] s.driver).2.2.1,
        (Tx.Commit d s.cache s.txs[i] s.driver).2.2.2⟩
    else s
  | .txRollback i =>
    if h : i < s.txs.length then
      ⟨(Tx.Rollback d s.cache s.txs[i] s.driver).2.1,
        s.txs.set i (Tx.Rollback d s.cache s.txs[i] s.driver).2.2.1,
        (Tx.Rollback d s.cache s.txs[i] s.driver).2.2.2⟩
    else s

/-- The system reached from `System.init` by a sequence of operations. -/
def runSys (d : Driver) (ops : List SysOp) : System :=
  ops.foldl (sysStep d) System.init

/-! ## Serialized repeated resolution (the lock-held-for-the-duration model)

`Cache.stmt` holds `stmtsLock` from its first line to its return (lock,
lookup, driver round-trip, store, unlock), so each resolution is one atomic
critical section; `N` concurrent invocations therefore execute as `N`
back-to-back resolutions in some order.  `Cache.stmtN` is that
serialization for a single query. -/

/-- `n` serialized invocations of `Cache.stmt` for the same `query`,
collecting every caller's result. -/
def Cache.stmtN (d : Driver) (query : String) :
    Nat → Cache → DriverState → List (Except String Handle) × Cache × DriverState
  | 0, c, ds => ([], c, ds)
  | n + 1, c, ds =>
    let (r, c', ds') := Cache.stmt d c ds query
    let (rs, c'', ds'') := Cache.stmtN d query n c' ds'
    (r :: rs, c'', ds'')

/-! ## Concrete drivers and states used to instantiate the theorems -/

/-- A driver on which every call succeeds and every execution returns `0`. -/
def dOK : Driver where
  prepFail := fun _ => none
  prepNamedFail := fun _ => none
  beginFail := none
  commitFail := none
  rollbackFail := none
  closeFail := none
  run := fun _ _ _ _ _ => .ok 0

/-- A driver that rejects every prepare with a syntax error. -/
def dBAD : Driver where
  prepFail := fun _ => some "syntax error"
  prepNamedFail := fun _ => some "syntax error"
  beginFail := none
  commitFail := none
  rollbackFail := none
  closeFail := none
  run := fun _ _ _ _ _ => .ok 0

/-- A fresh driver state: no handles allocated, empty logs. -/
def dsEmpty : DriverState := ⟨0, [], []⟩

/-- Well-formedness of a pool cache: every positional entry holds a
positional, pool-bound handle prepared from exactly its key, and every named
entry a named, pool-bound one.  `New` establishes it and every operation
preserves it; it is stated as a decidable boolean so that concrete caches can
be checked by evaluation. -/
def Cache.wfb (c : Cache) : Bool :=
  c.stmts.all
    (fun en => en.2.kind == .positional && en.2.query == en.1 && en.2.inTx == false) &&
  c.namedStmts.all
    (fun en => en.2.kind == .named && en.2.query == en.1 && en.2.inTx == false)

/-- A transaction cache sits below a pool cache when every query cached in
the transaction (in either namespace) is also cached at pool level in the
same namespace. -/
def Tx.below (tx : Tx) (c : Cache) : Prop :=
  (∀ q, (alookup q tx.stmts).isSome = true → (alookup q c.stmts).isSome = true) ∧
  (∀ q, (alookup q tx.namedStmts).isSome = true →
    (alookup q c.namedStmts).isSome = true)

/-- The relationship invariant: every live transaction's caches are below the
owning pool cache. -/
def System.inv (s : System) : Prop :=
  ∀ i, (hi : i < s.txs.length) → (s.txs[i]).below s.cache

/-! ## C9 — commit, rollback and close are cache frames -/

/-- A driver whose transaction-control and close calls all fail. -/
def dTXERR : Driver where
  prepFail := fun _ => none
  prepNamedFail := fun _ => none
  beginFail := some "begin failed"
  commitFail := some "commit failed"
  rollbackFail := some "rollback failed"
  closeFail := some "close failed"
  run := fun _ _ _ _ _ => .ok 0

/-! ## C8 — single-row operations defer execution to the row -/

/-- Map the value of a caller-visible outcome. -/
def Outcome.map (f : α → β) : Outcome α → Outcome β
  | .ok a => .ok (f a)
  | .err e => .err e
  | .panicked => .panicked

/-! ## C10 — the two `Tx` versions compared

The five positional forwarding operations of each version differ only in
which driver primitive they invoke, as do the named ones; the generic
runners below capture each shape once, with definitional bridges to the
per-operation definitions. -/

/-- Earlier version, positional shape: pool resolve, `Stmtx` re-bind,
execute. -/
def TxV1.posRun (d : Driver) (c : Cache) (ds : DriverState) (m : Method)
    (query : String) (args : List Nat) : Outcome Nat × Cache × DriverState :=
  match Cache.stmt d c ds query with
  | (.error e, c', ds') => (.err e, c', ds')
  | (.ok stmt, c', ds') =>
    match stmtxBind stmt ds' with
    | none => (.panicked, c', ds')
    | some (h, ds'') =>
      let (r, ds''') := execute d m h args ds''
      (Outcome.ofExcept r, c', ds''')

/-- Earlier version, named shape with `NamedStmt` re-bind: pool named
resolve, `NamedStmt` re-bind, execute. -/
def TxV1.namedRun (d : Driver) (c : Cache) (ds : DriverState) (m : Method)
    (query : String) (arg : Nat) : Outcome Nat × Cache × DriverState :=
  match Cache.namedStmt d c ds query with
  | (.error e, c', ds') => (.err e, c', ds')
  | (.ok namedStmt, c', ds') =>
    let (h, ds'') := namedStmtBind namedStmt ds'
    let (r, ds''') := execute d m h [arg] ds''
    (Outcome.ofExcept r, c', ds''')

/-- Earlier version, named shape with `Stmtx` re-bind (the `NamedQuery`
family): pool named resolve, then the named handle is handed to `Stmtx`. -/
def TxV1.namedStmtxRun (d : Driver) (c : Cache) (ds : DriverState) (m : Method)
    (query : String) (arg : Nat) : Outcome Nat × Cache × DriverState :=
  match Cache.namedStmt d c ds query with
  | (.error e, c', ds') => (.err e, c', ds')
  | (.ok namedStmt, c', ds') =>
    match stmtxBind namedStmt ds' with
    | none => (.panicked, c', ds')
    | some (h, ds'') =>
      let (r, ds''') := execute d m h [arg] ds''
      (Outcome.ofExcept r, c', ds''')

/-- Later version, positional shape: transaction resolve, execute the
resolved handle. -/
def Tx.posRun (d : Driver) (c : Cache) (tx : Tx) (ds : DriverState) (m : Method)
    (query : String) (args : List Nat) : Outcome Nat × Cache × Tx × DriverState :=
  match Tx.stmt d c tx ds query with
  | (.ok stmt, c', tx', ds') =>
    let (r, ds'') := execute d m stmt args ds'
    (Outcome.ofExcept r, c', tx', ds'')
  | (.err e, c', tx', ds') => (.err e, c', tx', ds')
  | (.panicked, c', tx', ds') => (.panicked, c', tx', ds')

/-- Later version, named shape executing the resolved handle directly. -/
def Tx.namedRunDirect (d : Driver) (c : Cache) (tx : Tx) (ds : DriverState)
    (m : Method) (query : String) (arg : Nat) :
    Outcome Nat × Cache × Tx × DriverState :=
  match Tx.namedStmt d c tx ds query with
  | (.ok namedStmt, c', tx', ds') =>
    let (r, ds'') := execute d m namedStmt [arg] ds'
    (Outcome.ofExcept r, c', tx', ds'')
  | (.err e, c', tx', ds') => (.err e, c', tx', ds')
  | (.panicked, c', tx', ds') => (.panicked, c', tx', ds')

/-- Later version, named shape that re-binds the resolved handle a second
time before executing (`NamedGet` / `NamedSelect`). -/
def Tx.namedRunRebind (d : Driver) (c : Cache) (tx : Tx) (ds : DriverState)
    (m : Method) (query : String) (arg : Nat) :
    Outcome Nat × Cache × Tx × DriverState :=
  match Tx.namedStmt d c tx ds query with
  | (.ok namedStmt, c', tx', ds') =>
    let (h, ds'') := namedStmtBind namedStmt ds'
    let (r, ds''') := execute d m h [arg] ds''
    (Outcome.ofExcept r, c', tx', ds''')
  | (.err e, c', tx', ds') => (.err e, c', tx', ds')
  | (.panicked, c', tx', ds') => (.panicked, c', tx', ds')

/-- Pool-cache well-formedness (propositional form): positional entries are
positional pool-bound handles prepared from their key; named entries
likewise. -/
structure Cache.PoolWf (c : Cache) : Prop where
  pos : ∀ q h, alookup q c.stmts = some h →
    h.kind = .positional ∧ h.query = q ∧ h.inTx = false
  named : ∀ q h, alookup q c.namedStmts = some h →
    h.kind = .named ∧ h.query = q ∧ h.inTx = false

/-- Transaction-cache well-formedness: entries are transaction-bound handles
of the right kind for their key. -/
structure Tx.TxWf (tx : Tx) : Prop where
  pos : ∀ q h, alookup q tx.stmts = some h →
    h.kind = .positional ∧ h.query = q ∧ h.inTx = true
  named : ∀ q h, alookup q tx.namedStmts = some h →
    h.kind = .named ∧ h.query = q ∧ h.inTx = true

/-- Simulation relation between a pool cache driven by the earlier `Tx` and
the pool cache plus transaction cache of the later `Tx`: the two pool caches
cache exactly the same keys, everything is well-formed, and the transaction
cache is below its pool cache. -/
structure Sim (c₁ c₂ : Cache) (tx : Tx) : Prop where
  posSome : ∀ q, (alookup q c₁.stmts).isSome = (alookup q c₂.stmts).isSome
  namedSome : ∀ q,
    (alookup q c₁.namedStmts).isSome = (alookup q c₂.namedStmts).isSome
  wf1 : c₁.PoolWf
  wf2 : c₂.PoolWf
  twf : tx.TxWf
  tbelow : tx.below c₂

/-- The operations whose earlier-version implementation hands the named
handle to the positional re-bind `Stmtx` (`tx.tx.Stmtx(namedStmt)`). -/
def TxOp.usesStmtxOnNamed : TxOp → Bool
  | .namedQuery _ _ => true
  | .namedQueryx _ _ => true
  | _ => false

/-! ## Basic lemmas about pool-level resolution -/

theorem Cache.stmt_hit (d : Driver) (c : Cache) (ds : DriverState) (q : String)
    (h : Handle) (hh : alookup q c.stmts = some h) :
    Cache.stmt d c ds q = (.ok h, c, ds) := by
  unfold Cache.stmt
  rw [hh]

theorem Cache.stmtContext_hit (d : Driver) (ctx : Context) (c : Cache)
    (ds : DriverState) (q : String) (h : Handle) (hh : alookup q c.stmts = some h) :
    Cache.stmtContext d ctx c ds q = (.ok h, c, ds) := by
  unfold Cache.stmtContext
  rw [hh]

theorem Cache.namedStmt_hit (d : Driver) (c : Cache) (ds : DriverState) (q : String)
    (h : Handle) (hh : alookup q c.namedStmts = some h) :
    Cache.namedStmt d c ds q = (.ok h, c, ds) := by
  unfold Cache.namedStmt
  rw [hh]

theorem Cache.namedStmtContext_hit (d : Driver) (ctx : Context) (c : Cache)
    (ds : DriverState) (q : String) (h : Handle)
    (hh : alookup q c.namedStmts = some h) :
    Cache.namedStmtContext d ctx c ds q = (.ok h, c, ds) := by
  unfold Cache.namedStmtContext
  rw [hh]

theorem Cache.stmt_miss_ok (d : Driver) (c : Cache) (ds : DriverState) (q : String)
    (hl : alookup q c.stmts = none) (hp : d.prepFail q = none) :
    Cache.stmt d c ds q =
      (.ok ⟨ds.nextId, .positional, q, false⟩,
        { c with stmts := (q, ⟨ds.nextId, .positional, q, false⟩) :: c.stmts },
        { ds with nextId := ds.nextId + 1,
                  prepCalls := ds.prepCalls ++ [⟨.positional, q, true⟩] }) := by
  unfold Cache.stmt
  rw [hl, hp]

theorem Cache.stmt_miss_err (d : Driver) (c : Cache) (ds : DriverState) (q : String)
    (e : String) (hl : alookup q c.stmts = none) (hp : d.prepFail q = some e) :
    Cache.stmt d c ds q =
      (.error e, c,
        { ds with prepCalls := ds.prepCalls ++ [⟨.positional, q, false⟩] }) := by
  unfold Cache.stmt
  rw [hl, hp]

theorem Cache.stmtContext_miss_ok (d : Driver) (ctx : Context) (c : Cache)
    (ds : DriverState) (q : String) (hl : alookup q c.stmts = none)
    (hp : d.prepFailCtx ctx q = none) :
    Cache.stmtContext d ctx c ds q =
      (.ok ⟨ds.nextId, .positional, q, false⟩,
        { c with stmts := (q, ⟨ds.nextId, .positional, q, false⟩) :: c.stmts },
        { ds with nextId := ds.nextId + 1,
                  prepCalls := ds.prepCalls ++ [⟨.positional, q, true⟩] }) := by
  unfold Cache.stmtContext
  rw [hl, hp]

theorem Cache.stmtContext_miss_err (d : Driver) (ctx : Context) (c : Cache)
    (ds : DriverState) (q : String) (e : String) (hl : alookup q c.stmts = none)
    (hp : d.prepFailCtx ctx q = some e) :
    Cache.stmtContext d ctx c ds q =
      (.error e, c,
        { ds with prepCalls := ds.prepCalls ++ [⟨.positional, q, false⟩] }) := by
  unfold Cache.stmtContext
  rw [hl, hp]

theorem Cache.namedStmt_miss_ok (d : Driver) (c : Cache) (ds : DriverState)
    (q : String) (hl : alookup q c.namedStmts = none) (hp : d.prepNamedFail q = none) :
    Cache.namedStmt d c ds q =
      (.ok ⟨ds.nextId, .named, q, false⟩,
        { c with namedStmts := (q, ⟨ds.nextId, .named, q, false⟩) :: c.namedStmts },
        { ds with nextId := ds.nextId + 1,
                  prepCalls := ds.prepCalls ++ [⟨.named, q, true⟩] }) := by
  unfold Cache.namedStmt
  rw [hl, hp]

theorem Cache.namedStmt_miss_err (d : Driver) (c : Cache) (ds : DriverState)
    (q : String) (e : String) (hl : alookup q c.namedStmts = none)
    (hp : d.prepNamedFail q = some e) :
    Cache.namedStmt d c ds q =
      (.error e, c,
        { ds with prepCalls := ds.prepCalls ++ [⟨.named, q, false⟩] }) := by
  unfold Cache.namedStmt
  rw [hl, hp]

theorem Cache.namedStmtContext_miss_ok (d : Driver) (ctx : Context) (c : Cache)
    (ds : DriverState) (q : String) (hl : alookup q c.namedStmts = none)
    (hp : d.prepNamedFailCtx ctx q = none) :
    Cache.namedStmtContext d ctx c ds q =
      (.ok ⟨ds.nextId, .named, q, false⟩,
        { c with namedStmts := (q, ⟨ds.nextId, .named, q, false⟩) :: c.namedStmts },
        { ds with nextId := ds.nextId + 1,
                  prepCalls := ds.prepCalls ++ [⟨.named, q, true⟩] }) := by
  unfold Cache.namedStmtContext
  rw [hl, hp]

theorem Cache.namedStmtContext_miss_err (d : Driver) (ctx : Context) (c : Cache)
    (ds : DriverState) (q : String) (e : String) (hl : alookup q c.namedStmts = none)
    (hp : d.prepNamedFailCtx ctx q = some e) :
    Cache.namedStmtContext d ctx c ds q =
      (.error e, c,
        { ds with prepCalls := ds.prepCalls ++ [⟨.named, q, false⟩] }) := by
  unfold Cache.namedStmtContext
  rw [hl, hp]

/-- A positional entry, once present, survives any later positional
resolution (of the same or any other query) unchanged. -/
theorem Cache.stmt_preserves_stmts (d : Driver) (c : Cache) (ds : DriverState)
    (q q' : String) (h : Handle) (hh : alookup q' c.stmts = some h) :
    alookup q' (Cache.stmt d c ds q).2.1.stmts = some h := by
  cases hq : alookup q c.stmts with
  | some v => rw [Cache.stmt_hit d c ds q v hq]; exact hh
  | none =>
    cases hp : d.prepFail q with
    | some e => rw [Cache.stmt_miss_err d c ds q e hq hp]; exact hh
    | none =>
      rw [Cache.stmt_miss_ok d c ds q hq hp]
      simp only [alookup_cons]
      split
      · next heq => rw [heq] at hq; rw [hq] at hh; cases hh
      · exact hh

theorem Cache.stmtContext_preserves_stmts (d : Driver) (ctx : Context) (c : Cache)
    (ds : DriverState) (q q' : String) (h : Handle)
    (hh : alookup q' c.stmts = some h) :
    alookup q' (Cache.stmtContext d ctx c ds q).2.1.stmts = some h := by
  cases hq : alookup q c.stmts with
  | some v => rw [Cache.stmtContext_hit d ctx c ds q v hq]; exact hh
  | none =>
    cases hp : d.prepFailCtx ctx q with
    | some e => rw [Cache.stmtContext_miss_err d ctx c ds q e hq hp]; exact hh
    | none =>
      rw [Cache.stmtContext_miss_ok d ctx c ds q hq hp]
      simp only [alookup_cons]
      split
      · next heq => rw [heq] at hq; rw [hq] at hh; cases hh
      · exact hh

theorem Cache.namedStmt_preserves_namedStmts (d : Driver) (c : Cache)
    (ds : DriverState) (q q' : String) (h : Handle)
    (hh : alookup q' c.namedStmts = some h) :
    alookup q' (Cache.namedStmt d c ds q).2.1.namedStmts = some h := by
  cases hq : alookup q c.namedStmts with
  | some v => rw [Cache.namedStmt_hit d c ds q v hq]; exact hh
  | none =>
    cases hp : d.prepNamedFail q with
    | some e => rw [Cache.namedStmt_miss_err d c ds q e hq hp]; exact hh
    | none =>
      rw [Cache.namedStmt_miss_ok d c ds q hq hp]
      simp only [alookup_cons]
      split
      · next heq => rw [heq] at hq; rw [hq] at hh; cases hh
      · exact hh

theorem Cache.namedStmtContext_preserves_namedStmts (d : Driver) (ctx : Context)
    (c : Cache) (ds : DriverState) (q q' : String) (h : Handle)
    (hh : alookup q' c.namedStmts = some h) :
    alookup q' (Cache.namedStmtContext d ctx c ds q).2.1.namedStmts = some h := by
  cases hq : alookup q c.namedStmts with
  | some v => rw [Cache.namedStmtContext_hit d ctx c ds q v hq]; exact hh
  | none =>
    cases hp : d.prepNamedFailCtx ctx q with
    | some e => rw [Cache.namedStmtContext_miss_err d ctx c ds q e hq hp]; exact hh
    | none =>
      rw [Cache.namedStmtContext_miss_ok d ctx c ds q hq hp]
      simp only [alookup_cons]
      split
      · next heq => rw [heq] at hq; rw [hq] at hh; cases hh
      · exact hh

/-- Positional resolution never touches the named map. -/
theorem Cache.stmt_namedStmts_frame (d : Driver) (c : Cache) (ds : DriverState)
    (q : String) : (Cache.stmt d c ds q).2.1.namedStmts = c.namedStmts := by
  unfold Cache.stmt
  cases hq : alookup q c.stmts with
  | some v => rfl
  | none => cases hp : d.prepFail q <;> rfl

theorem Cache.stmtContext_namedStmts_frame (d : Driver) (ctx : Context) (c : Cache)
    (ds : DriverState) (q : String) :
    (Cache.stmtContext d ctx c ds q).2.1.namedStmts = c.namedStmts := by
  unfold Cache.stmtContext
  cases hq : alookup q c.stmts with
  | some v => rfl
  | none => cases hp : d.prepFailCtx ctx q <;> rfl

/-- Named resolution never touches the positional map. -/
theorem Cache.namedStmt_stmts_frame (d : Driver) (c : Cache) (ds : DriverState)
    (q : String) : (Cache.namedStmt d c ds q).2.1.stmts = c.stmts := by
  unfold Cache.namedStmt
  cases hq : alookup q c.namedStmts with
  | some v => rfl
  | none => cases hp : d.prepNamedFail q <;> rfl

theorem Cache.namedStmtContext_stmts_frame (d : Driver) (ctx : Context) (c : Cache)
    (ds : DriverState) (q : String) :
    (Cache.namedStmtContext d ctx c ds q).2.1.stmts = c.stmts := by
  unfold Cache.namedStmtContext
  cases hq : alookup q c.namedStmts with
  | some v => rfl
  | none => cases hp : d.prepNamedFailCtx ctx q <;> rfl

/-! ## C1 — pool-level resolution contract -/

/-- **C1**: for every query `q`, pool-level positional resolution
(`Cache.stmt` and `Cache.stmtContext`) returns the stored handle without any
driver call when `q` is cached; when absent it issues exactly one driver
prepare call, stores the handle under the exact query text, and returns it;
and an entry, once stored, is never replaced by any later resolution.  The
named resolution (`Cache.namedStmt` / `Cache.namedStmtContext`) satisfies the
identical contract over the named cache. -/
theorem claim_C1_resolution_contract (d : Driver) (ctx : Context) (c : Cache)
    (ds : DriverState) (q q' : String) (h : Handle) :
    (alookup q c.stmts = some h →
      Cache.stmt d c ds q = (.ok h, c, ds) ∧
      Cache.stmtContext d ctx c ds q = (.ok h, c, ds)) ∧
    (alookup q c.stmts = none → d.prepFail q = none →
      Cache.stmt d c ds q =
        (.ok ⟨ds.nextId, .positional, q, false⟩,
          { c with stmts := (q, ⟨ds.nextId, .positional, q, false⟩) :: c.stmts },
          { ds with nextId := ds.nextId + 1,
                    prepCalls := ds.prepCalls ++ [⟨.positional, q, true⟩] }) ∧
      alookup q (Cache.stmt d c ds q).2.1.stmts
        = some ⟨ds.nextId, .positional, q, false⟩) ∧
    (alookup q c.stmts = some h →
      alookup q (Cache.stmt d c ds q').2.1.stmts = some h ∧
      alookup q (Cache.stmtContext d ctx c ds q').2.1.stmts = some h ∧
      alookup q (Cache.namedStmt d c ds q').2.1.stmts = some h ∧
      alookup q (Cache.namedStmtContext d ctx c ds q').2.1.stmts = some h) ∧
    (alookup q c.namedStmts = some h →
      Cache.namedStmt d c ds q = (.ok h, c, ds) ∧
      Cache.namedStmtContext d ctx c ds q = (.ok h, c, ds)) ∧
    (alookup q c.namedStmts = none → d.prepNamedFail q = none →
      Cache.namedStmt d c ds q =
        (.ok ⟨ds.nextId, .named, q, false⟩,
          { c with namedStmts := (q, ⟨ds.nextId, .named, q, false⟩) :: c.namedStmts },
          { ds with nextId := ds.nextId + 1,
                    prepCalls := ds.prepCalls ++ [⟨.named, q, true⟩] }) ∧
      alookup q (Cache.namedStmt d c ds q).2.1.namedStmts
        = some ⟨ds.nextId, .named, q, false⟩) ∧
    (alookup q c.namedStmts = some h →
      alookup q (Cache.namedStmt d c ds q').2.1.namedStmts = some h ∧
      alookup q (Cache.namedStmtContext d ctx c ds q').2.1.namedStmts = some h ∧
      alookup q (Cache.stmt d c ds q').2.1.namedStmts = some h ∧
      alookup q (Cache.stmtContext d ctx c ds q').2.1.namedStmts = some h) := by
  refine ⟨fun hh => ⟨Cache.stmt_hit d c ds q h hh, Cache.stmtContext_hit d ctx c ds q h hh⟩,
    fun hl hp => ⟨Cache.stmt_miss_ok d c ds q hl hp, ?_⟩,
    fun hh => ⟨Cache.stmt_preserves_stmts d c ds q' q h hh,
      Cache.stmtContext_preserves_stmts d ctx c ds q' q h hh, ?_, ?_⟩,
    fun hh => ⟨Cache.namedStmt_hit d c ds q h hh,
      Cache.namedStmtContext_hit d ctx c ds q h hh⟩,
    fun hl hp => ⟨Cache.namedStmt_miss_ok d c ds q hl hp, ?_⟩,
    fun hh => ⟨Cache.namedStmt_preserves_namedStmts d c ds q' q h hh,
      Cache.namedStmtContext_preserves_namedStmts d ctx c ds q' q h hh, ?_, ?_⟩⟩
  · rw [Cache.stmt_miss_ok d c ds q hl hp]
    simp
  · rw [Cache.namedStmt_stmts_frame]; exact hh
  · rw [Cache.namedStmtContext_stmts_frame]; exact hh
  · rw [Cache.namedStmt_miss_ok d c ds q hl hp]
    simp
  · rw [Cache.stmt_namedStmts_frame]; exact hh
  · rw [Cache.stmtContext_namedStmts_frame]; exact hh

/-- Witness for C1: the contract evaluated at concrete inputs — a hit on a
one-entry cache returns the stored handle unchanged, and a miss on the fresh
cache stores the newly prepared handle under the query text. -/
theorem claim_C1_resolution_contract_witness :
    (Cache.stmt dOK ⟨[("q", ⟨0, .positional, "q", false⟩)], []⟩ ⟨1, [], []⟩ "q"
      = (.ok ⟨0, .positional, "q", false⟩,
         ⟨[("q", ⟨0, .positional, "q", false⟩)], []⟩, ⟨1, [], []⟩)) ∧
    (alookup "q" (Cache.stmt dOK Cache.new dsEmpty "q").2.1.stmts
      = some ⟨0, .positional, "q", false⟩) ∧
    (alookup "q" (Cache.namedStmt dOK Cache.new dsEmpty "q").2.1.namedStmts
      = some ⟨0, .named, "q", false⟩) := by
  refine ⟨((claim_C1_resolution_contract dOK ⟨false⟩
      ⟨[("q", ⟨0, .positional, "q", false⟩)], []⟩ ⟨1, [], []⟩ "q" "q"
      ⟨0, .positional, "q", false⟩).1 (by decide)).1,
    ((claim_C1_resolution_contract dOK ⟨false⟩ Cache.new dsEmpty "q" "q"
      ⟨0, .positional, "q", false⟩).2.1 (by decide) rfl).2,
    ((claim_C1_resolution_contract dOK ⟨false⟩ Cache.new dsEmpty "q" "q"
      ⟨0, .named, "q", false⟩).2.2.2.2.1 (by decide) rfl).2⟩

/-! ## C3 — prepare failures are returned and never cached -/

/-- **C3**: if the driver's prepare fails during resolution — including a
failure forced by a canceled context on the `*Context` variants — the
resolution returns that error and leaves the cache maps exactly as they were
(no entry is stored), so a subsequent resolution of the same query performs
another driver prepare attempt instead of short-circuiting. -/
theorem claim_C3_failure_not_cached (d : Driver) (ctx : Context) (c : Cache)
    (ds : DriverState) (q : String) (e : String) :
    (alookup q c.stmts = none → d.prepFail q = some e →
      Cache.stmt d c ds q =
        (.error e, c,
          { ds with prepCalls := ds.prepCalls ++ [⟨.positional, q, false⟩] }) ∧
      (Cache.stmt d c
          { ds with prepCalls := ds.prepCalls ++ [⟨.positional, q, false⟩] }
          q).2.2.prepCalls
        = ds.prepCalls ++ [⟨.positional, q, false⟩] ++ [⟨.positional, q, false⟩]) ∧
    (alookup q c.stmts = none → d.prepFailCtx ctx q = some e →
      Cache.stmtContext d ctx c ds q =
        (.error e, c,
          { ds with prepCalls := ds.prepCalls ++ [⟨.positional, q, false⟩] })) ∧
    (alookup q c.stmts = none → ctx.canceled = true →
      Cache.stmtContext d ctx c ds q =
        (.error "context canceled", c,
          { ds with prepCalls := ds.prepCalls ++ [⟨.positional, q, false⟩] })) ∧
    (alookup q c.namedStmts = none → d.prepNamedFail q = some e →
      Cache.namedStmt d c ds q =
        (.error e, c,
          { ds with prepCalls := ds.prepCalls ++ [⟨.named, q, false⟩] }) ∧
      (Cache.namedStmt d c
          { ds with prepCalls := ds.prepCalls ++ [⟨.named, q, false⟩] }
          q).2.2.prepCalls
        = ds.prepCalls ++ [⟨.named, q, false⟩] ++ [⟨.named, q, false⟩]) ∧
    (alookup q c.namedStmts = none → d.prepNamedFailCtx ctx q = some e →
      Cache.namedStmtContext d ctx c ds q =
        (.error e, c,
          { ds with prepCalls := ds.prepCalls ++ [⟨.named, q, false⟩] })) ∧
    (alookup q c.namedStmts = none → ctx.canceled = true →
      Cache.namedStmtContext d ctx c ds q =
        (.error "context canceled", c,
          { ds with prepCalls := ds.prepCalls ++ [⟨.named, q, false⟩] })) := by
  refine ⟨fun hl hp => ⟨Cache.stmt_miss_err d c ds q e hl hp, ?_⟩,
    fun hl hp => Cache.stmtContext_miss_err d ctx c ds q e hl hp,
    fun hl hcanc => Cache.stmtContext_miss_err d ctx c ds q _ hl ?_,
    fun hl hp => ⟨Cache.namedStmt_miss_err d c ds q e hl hp, ?_⟩,
    fun hl hp => Cache.namedStmtContext_miss_err d ctx c ds q e hl hp,
    fun hl hcanc => Cache.namedStmtContext_miss_err d ctx c ds q _ hl ?_⟩
  · rw [Cache.stmt_miss_err d c _ q e hl hp]
  · unfold Driver.prepFailCtx
    rw [hcanc]
    simp
  · rw [Cache.namedStmt_miss_err d c _ q e hl hp]
  · unfold Driver.prepNamedFailCtx
    rw [hcanc]
    simp

/-- Witness for C3: on the always-rejecting driver the first resolution
returns the syntax error and leaves the fresh cache empty, and a canceled
context fails resolution with a cancellation error without storing an
entry. -/
theorem claim_C3_failure_not_cached_witness :
    Cache.stmt dBAD Cache.new dsEmpty "q"
      = (.error "syntax error", Cache.new, ⟨0, [⟨.positional, "q", false⟩], []⟩) ∧
    Cache.stmtContext dOK ⟨true⟩ Cache.new dsEmpty "q"
      = (.error "context canceled", Cache.new, ⟨0, [⟨.positional, "q", false⟩], []⟩) := by
  refine ⟨((claim_C3_failure_not_cached dBAD ⟨false⟩ Cache.new dsEmpty "q"
      "syntax error").1 rfl rfl).1,
    ((claim_C3_failure_not_cached dOK ⟨true⟩ Cache.new dsEmpty "q"
      "context canceled").2.2.1 rfl rfl)⟩

/-! ## C2 — at-most-once preparation under concurrent resolution -/

/-- Once the entry is present, every further serialized invocation returns
the stored handle and changes nothing. -/
theorem Cache.stmtN_hit (d : Driver) (q : String) (h : Handle) (n : Nat)
    (c : Cache) (ds : DriverState) (hh : alookup q c.stmts = some h) :
    Cache.stmtN d q n c ds = (List.replicate n (.ok h), c, ds) := by
  induction n with
  | zero => rfl
  | succ n ih =>
    unfold Cache.stmtN
    rw [Cache.stmt_hit d c ds q h hh]
    simp [ih, List.replicate_succ]

/-- **C2**: `n ≥ 1` concurrent resolutions of the same query `q` against a
fresh cache — serialized by the cache lock, which `Cache.stmt` holds for the
whole check-then-create-then-store sequence including the driver call —
issue exactly one driver prepare call; every caller receives the same handle,
and that handle is stored in the cache (no handle is created and dropped). -/
theorem claim_C2_at_most_once (d : Driver) (q : String) (n : Nat) (ds : DriverState)
    (hp : d.prepFail q = none) (hn : 1 ≤ n) :
    Cache.stmtN d q n Cache.new ds =
      (List.replicate n (.ok ⟨ds.nextId, .positional, q, false⟩),
        ⟨[(q, ⟨ds.nextId, .positional, q, false⟩)], []⟩,
        { ds with nextId := ds.nextId + 1,
                  prepCalls := ds.prepCalls ++ [⟨.positional, q, true⟩] }) ∧
    alookup q (Cache.stmtN d q n Cache.new ds).2.1.stmts
      = some ⟨ds.nextId, .positional, q, false⟩ := by
  obtain ⟨m, rfl⟩ : ∃ m, n = m + 1 :=
    ⟨n - 1, (Nat.succ_pred_eq_of_pos hn).symm⟩
  have hfirst : Cache.stmt d Cache.new ds q =
      (.ok ⟨ds.nextId, .positional, q, false⟩,
        { Cache.new with
            stmts := (q, ⟨ds.nextId, .positional, q, false⟩) :: Cache.new.stmts },
        { ds with nextId := ds.nextId + 1,
                  prepCalls := ds.prepCalls ++ [⟨.positional, q, true⟩] }) :=
    Cache.stmt_miss_ok d Cache.new ds q rfl hp
  have hrest := Cache.stmtN_hit d q ⟨ds.nextId, .positional, q, false⟩ m
    ⟨[(q, ⟨ds.nextId, .positional, q, false⟩)], []⟩
    { ds with nextId := ds.nextId + 1,
              prepCalls := ds.prepCalls ++ [⟨.positional, q, true⟩] }
    (by simp)
  constructor
  · unfold Cache.stmtN
    rw [hfirst]
    simp only [Cache.new] at hrest ⊢
    rw [hrest]
    simp [List.replicate_succ]
  · unfold Cache.stmtN
    rw [hfirst]
    simp only [Cache.new] at hrest ⊢
    rw [hrest]
    simp

/-- Witness for C2: three serialized resolutions of `"q"` on the
always-succeeding driver produce one prepare call and three identical `ok`
results. -/
theorem claim_C2_at_most_once_witness :
    Cache.stmtN dOK "q" 3 Cache.new dsEmpty =
      (List.replicate 3 (.ok ⟨0, .positional, "q", false⟩),
        ⟨[("q", ⟨0, .positional, "q", false⟩)], []⟩,
        ⟨1, [⟨.positional, "q", true⟩], []⟩) :=
  (claim_C2_at_most_once dOK "q" 3 dsEmpty rfl (by decide)).1

/-! ## C6 — independence of the positional and named namespaces -/

/-- **C6**: every positional resolution leaves the named cache untouched and
every named resolution leaves the positional cache untouched; and resolving
the same query text once positionally and once named produces two distinct
handles stored as separate entries in the two separate maps, via two distinct
driver prepare calls. -/
theorem claim_C6_namespace_independence (d : Driver) (ctx : Context) (c : Cache)
    (ds : DriverState) (q : String) :
    (Cache.stmt d c ds q).2.1.namedStmts = c.namedStmts ∧
    (Cache.stmtContext d ctx c ds q).2.1.namedStmts = c.namedStmts ∧
    (Cache.namedStmt d c ds q).2.1.stmts = c.stmts ∧
    (Cache.namedStmtContext d ctx c ds q).2.1.stmts = c.stmts ∧
    (alookup q c.stmts = none → alookup q c.namedStmts = none →
      d.prepFail q = none → d.prepNamedFail q = none →
      ∃ h₁ h₂ : Handle,
        (Cache.stmt d c ds q).1 = .ok h₁ ∧
        (Cache.namedStmt d (Cache.stmt d c ds q).2.1 (Cache.stmt d c ds q).2.2 q).1
          = .ok h₂ ∧
        h₁ ≠ h₂ ∧
        alookup q (Cache.namedStmt d (Cache.stmt d c ds q).2.1
            (Cache.stmt d c ds q).2.2 q).2.1.stmts = some h₁ ∧
        alookup q (Cache.namedStmt d (Cache.stmt d c ds q).2.1
            (Cache.stmt d c ds q).2.2 q).2.1.namedStmts = some h₂ ∧
        (Cache.namedStmt d (Cache.stmt d c ds q).2.1
            (Cache.stmt d c ds q).2.2 q).2.2.prepCalls
          = ds.prepCalls ++ [⟨.positional, q, true⟩, ⟨.named, q, true⟩]) := by
  refine ⟨Cache.stmt_namedStmts_frame d c ds q,
    Cache.stmtContext_namedStmts_frame d ctx c ds q,
    Cache.namedStmt_stmts_frame d c ds q,
    Cache.namedStmtContext_stmts_frame d ctx c ds q,
    fun hl hln hp hpn => ?_⟩
  rw [Cache.stmt_miss_ok d c ds q hl hp]
  have hsecond := Cache.namedStmt_miss_ok d
    { c with stmts := (q, ⟨ds.nextId, .positional, q, false⟩) :: c.stmts }
    { ds with nextId := ds.nextId + 1,
              prepCalls := ds.prepCalls ++ [⟨.positional, q, true⟩] }
    q hln hpn
  refine ⟨⟨ds.nextId, .positional, q, false⟩, ⟨ds.nextId + 1, .named, q, false⟩,
    rfl, ?_, by simp, ?_, ?_, ?_⟩
  · rw [hsecond]
  · rw [hsecond]; simp
  · rw [hsecond]; simp
  · rw [hsecond]; simp

/-- Witness for C6: on a fresh cache with the always-succeeding driver, the
back-to-back positional and named resolutions of `"q"` yield handles `0` and
`1` in the two maps and a two-element prepare log. -/
theorem claim_C6_namespace_independence_witness :
    ∃ h₁ h₂ : Handle,
      (Cache.stmt dOK Cache.new dsEmpty "q").1 = .ok h₁ ∧
      (Cache.namedStmt dOK (Cache.stmt dOK Cache.new dsEmpty "q").2.1
          (Cache.stmt dOK Cache.new dsEmpty "q").2.2 "q").1 = .ok h₂ ∧
      h₁ ≠ h₂ ∧
      alookup "q" (Cache.namedStmt dOK (Cache.stmt dOK Cache.new dsEmpty "q").2.1
          (Cache.stmt dOK Cache.new dsEmpty "q").2.2 "q").2.1.stmts = some h₁ ∧
      alookup "q" (Cache.namedStmt dOK (Cache.stmt dOK Cache.new dsEmpty "q").2.1
          (Cache.stmt dOK Cache.new dsEmpty "q").2.2 "q").2.1.namedStmts = some h₂ ∧
      (Cache.namedStmt dOK (Cache.stmt dOK Cache.new dsEmpty "q").2.1
          (Cache.stmt dOK Cache.new dsEmpty "q").2.2 "q").2.2.prepCalls
        = dsEmpty.prepCalls ++ [⟨.positional, "q", true⟩, ⟨.named, "q", true⟩] :=
  (claim_C6_namespace_independence dOK ⟨false⟩ Cache.new dsEmpty "q").2.2.2.2
    rfl rfl rfl rfl

/-! ## C5 — transaction derivation re-uses the pool entry -/

/-- A key found by `alookup` is an entry of the list. -/
theorem alookup_mem (q : String) (l : List (String × Handle)) (h : Handle)
    (hh : alookup q l = some h) : (q, h) ∈ l := by
  induction l with
  | nil => cases hh
  | cons a l ih =>
    obtain ⟨k, v⟩ := a
    rw [alookup_cons] at hh
    split at hh
    · next heq =>
      cases hh
      subst heq
      exact List.mem_cons_self _ _
    · exact List.mem_cons_of_mem _ (ih hh)

theorem Cache.wfb_stmts_spec (c : Cache) (hwf : c.wfb = true) (q : String)
    (h : Handle) (hh : alookup q c.stmts = some h) :
    h.kind = .positional ∧ h.query = q ∧ h.inTx = false := by
  unfold Cache.wfb at hwf
  rw [Bool.and_eq_true] at hwf
  have hmem := alookup_mem q c.stmts h hh
  have hp := List.all_eq_true.mp hwf.1 _ hmem
  simp at hp
  exact ⟨hp.1.1, hp.1.2, hp.2⟩

theorem Cache.wfb_namedStmts_spec (c : Cache) (hwf : c.wfb = true) (q : String)
    (h : Handle) (hh : alookup q c.namedStmts = some h) :
    h.kind = .named ∧ h.query = q ∧ h.inTx = false := by
  unfold Cache.wfb at hwf
  rw [Bool.and_eq_true] at hwf
  have hmem := alookup_mem q c.namedStmts h hh
  have hp := List.all_eq_true.mp hwf.2 _ hmem
  simp at hp
  exact ⟨hp.1.1, hp.1.2, hp.2⟩

/-- **C5**: when the pool cache already holds an entry `h` for `q`, resolving
`q` in a newly begun transaction issues no pool-level prepare call (the pool
cache and the prepare log are unchanged), re-binds `h` into the transaction
as a fresh transaction-bound handle `h'`, stores `h'` in the transaction's
own cache under `q` and returns it; `h'` is distinct from `h`.  The context
variant behaves identically. -/
theorem claim_C5_transaction_derivation (d : Driver) (ctx : Context) (c : Cache)
    (ds : DriverState) (q : String) (h : Handle) (hwf : c.wfb = true)
    (hh : alookup q c.stmts = some h) :
    (Tx.stmt d c Tx.new ds q =
      (.ok ⟨ds.nextId, .positional, q, true⟩, c,
        ⟨[(q, ⟨ds.nextId, .positional, q, true⟩)], []⟩,
        { ds with nextId := ds.nextId + 1 }) ∧
      (⟨ds.nextId, .positional, q, true⟩ : Handle) ≠ h) ∧
    (Tx.stmtContext d ctx c Tx.new ds q =
      (.ok ⟨ds.nextId, .positional, q, true⟩, c,
        ⟨[(q, ⟨ds.nextId, .positional, q, true⟩)], []⟩,
        { ds with nextId := ds.nextId + 1 }) ∧
      (⟨ds.nextId, .positional, q, true⟩ : Handle) ≠ h) := by
  obtain ⟨hk, hq, hit⟩ := Cache.wfb_stmts_spec c hwf q h hh
  have hne : (⟨ds.nextId, .positional, q, true⟩ : Handle) ≠ h := by
    intro heq
    rw [← heq] at hit
    cases hit
  constructor
  · refine ⟨?_, hne⟩
    unfold Tx.stmt
    rw [show alookup q Tx.new.stmts = none from rfl,
      Cache.stmt_hit d c ds q h hh]
    simp [stmtxBind, hk, hq, Tx.new]
  · refine ⟨?_, hne⟩
    unfold Tx.stmtContext
    rw [show alookup q Tx.new.stmts = none from rfl,
      Cache.stmtContext_hit d ctx c ds q h hh]
    simp [stmtxBind, hk, hq, Tx.new]

/-- Witness for C5: a pool cache holding handle `0` for `"q"` yields, inside
a fresh transaction, the distinct transaction-bound handle `1` without a new
prepare call. -/
theorem claim_C5_transaction_derivation_witness :
    Tx.stmt dOK ⟨[("q", ⟨0, .positional, "q", false⟩)], []⟩ Tx.new ⟨1, [], []⟩ "q"
      = (.ok ⟨1, .positional, "q", true⟩,
        ⟨[("q", ⟨0, .positional, "q", false⟩)], []⟩,
        ⟨[("q", ⟨1, .positional, "q", true⟩)], []⟩, ⟨2, [], []⟩) ∧
    (⟨1, .positional, "q", true⟩ : Handle) ≠ ⟨0, .positional, "q", false⟩ :=
  (claim_C5_transaction_derivation dOK ⟨false⟩
    ⟨[("q", ⟨0, .positional, "q", false⟩)], []⟩ ⟨1, [], []⟩ "q"
    ⟨0, .positional, "q", false⟩ (by decide) (by decide)).1

/-! ## C4 — transaction caches are always below the pool cache -/

theorem Cache.stmt_stmts_isSome_mono (d : Driver) (c : Cache) (ds : DriverState)
    (q q' : String) (hs : (alookup q' c.stmts).isSome = true) :
    (alookup q' (Cache.stmt d c ds q).2.1.stmts).isSome = true := by
  obtain ⟨h, hh⟩ := Option.isSome_iff_exists.mp hs
  rw [Cache.stmt_preserves_stmts d c ds q q' h hh]
  rfl

theorem Cache.stmtContext_stmts_isSome_mono (d : Driver) (ctx : Context) (c : Cache)
    (ds : DriverState) (q q' : String) (hs : (alookup q' c.stmts).isSome = true) :
    (alookup q' (Cache.stmtContext d ctx c ds q).2.1.stmts).isSome = true := by
  obtain ⟨h, hh⟩ := Option.isSome_iff_exists.mp hs
  rw [Cache.stmtContext_preserves_stmts d ctx c ds q q' h hh]
  rfl

theorem Cache.namedStmt_namedStmts_isSome_mono (d : Driver) (c : Cache)
    (ds : DriverState) (q q' : String)
    (hs : (alookup q' c.namedStmts).isSome = true) :
    (alookup q' (Cache.namedStmt d c ds q).2.1.namedStmts).isSome = true := by
  obtain ⟨h, hh⟩ := Option.isSome_iff_exists.mp hs
  rw [Cache.namedStmt_preserves_namedStmts d c ds q q' h hh]
  rfl

theorem Cache.namedStmtContext_namedStmts_isSome_mono (d : Driver) (ctx : Context)
    (c : Cache) (ds : DriverState) (q q' : String)
    (hs : (alookup q' c.namedStmts).isSome = true) :
    (alookup q' (Cache.namedStmtContext d ctx c ds q).2.1.namedStmts).isSome = true := by
  obtain ⟨h, hh⟩ := Option.isSome_iff_exists.mp hs
  rw [Cache.namedStmtContext_preserves_namedStmts d ctx c ds q q' h hh]
  rfl

/-- A successful pool-level positional resolution leaves its handle stored
under the query. -/
theorem Cache.stmt_ok_lookup (d : Driver) (c : Cache) (ds : DriverState)
    (q : String) (h : Handle) (hok : (Cache.stmt d c ds q).1 = .ok h) :
    alookup q (Cache.stmt d c ds q).2.1.stmts = some h := by
  cases hq : alookup q c.stmts with
  | some v =>
    rw [Cache.stmt_hit d c ds q v hq] at hok ⊢
    cases hok
    exact hq
  | none =>
    cases hp : d.prepFail q with
    | some e =>
      rw [Cache.stmt_miss_err d c ds q e hq hp] at hok
      cases hok
    | none =>
      rw [Cache.stmt_miss_ok d c ds q hq hp] at hok ⊢
      cases hok
      simp

theorem Cache.stmtContext_ok_lookup (d : Driver) (ctx : Context) (c : Cache)
    (ds : DriverState) (q : String) (h : Handle)
    (hok : (Cache.stmtContext d ctx c ds q).1 = .ok h) :
    alookup q (Cache.stmtContext d ctx c ds q).2.1.stmts = some h := by
  cases hq : alookup q c.stmts with
  | some v =>
    rw [Cache.stmtContext_hit d ctx c ds q v hq] at hok ⊢
    cases hok
    exact hq
  | none =>
    cases hp : d.prepFailCtx ctx q with
    | some e =>
      rw [Cache.stmtContext_miss_err d ctx c ds q e hq hp] at hok
      cases hok
    | none =>
      rw [Cache.stmtContext_miss_ok d ctx c ds q hq hp] at hok ⊢
      cases hok
      simp

theorem Cache.namedStmt_ok_lookup (d : Driver) (c : Cache) (ds : DriverState)
    (q : String) (h : Handle) (hok : (Cache.namedStmt d c ds q).1 = .ok h) :
    alookup q (Cache.namedStmt d c ds q).2.1.namedStmts = some h := by
  cases hq : alookup q c.namedStmts with
  | some v =>
    rw [Cache.namedStmt_hit d c ds q v hq] at hok ⊢
    cases hok
    exact hq
  | none =>
    cases hp : d.prepNamedFail q with
    | some e =>
      rw [Cache.namedStmt_miss_err d c ds q e hq hp] at hok
      cases hok
    | none =>
      rw [Cache.namedStmt_miss_ok d c ds q hq hp] at hok ⊢
      cases hok
      simp

theorem Cache.namedStmtContext_ok_lookup (d : Driver) (ctx : Context) (c : Cache)
    (ds : DriverState) (q : String) (h : Handle)
    (hok : (Cache.namedStmtContext d ctx c ds q).1 = .ok h) :
    alookup q (Cache.namedStmtContext d ctx c ds q).2.1.namedStmts = some h := by
  cases hq : alookup q c.namedStmts with
  | some v =>
    rw [Cache.namedStmtContext_hit d ctx c ds q v hq] at hok ⊢
    cases hok
    exact hq
  | none =>
    cases hp : d.prepNamedFailCtx ctx q with
    | some e =>
      rw [Cache.namedStmtContext_miss_err d ctx c ds q e hq hp] at hok
      cases hok
    | none =>
      rw [Cache.namedStmtContext_miss_ok d ctx c ds q hq hp] at hok ⊢
      cases hok
      simp

theorem Tx.below_mono (t : Tx) (c c' : Cache)
    (hm : ∀ q, (alookup q c.stmts).isSome = true →
      (alookup q c'.stmts).isSome = true)
    (hmn : ∀ q, (alookup q c.namedStmts).isSome = true →
      (alookup q c'.namedStmts).isSome = true)
    (hb : t.below c) : t.below c' :=
  ⟨fun q hs => hm q (hb.1 q hs), fun q hs => hmn q (hb.2 q hs)⟩

theorem Tx.new_below (c : Cache) : Tx.new.below c := by
  constructor <;> intro q hs <;> cases hs

theorem Tx.stmt_preserves_below (d : Driver) (c : Cache) (tx : Tx)
    (ds : DriverState) (q : String) (hb : tx.below c) :
    ((Tx.stmt d c tx ds q).2.2.1).below (Tx.stmt d c tx ds q).2.1 := by
  unfold Tx.stmt
  split
  · exact hb
  · split
    · next e c' ds' heq =>
      refine Tx.below_mono tx c c' (fun q' => ?_) (fun q' => ?_) hb
      · have hm := Cache.stmt_stmts_isSome_mono d c ds q q'
        rw [heq] at hm
        exact hm
      · have hf := Cache.stmt_namedStmts_frame d c ds q
        rw [heq] at hf
        intro hs
        rw [show c'.namedStmts = c.namedStmts from hf]
        exact hs
    · next cached c' ds' heq =>
      split
      · refine Tx.below_mono tx c c' (fun q' => ?_) (fun q' => ?_) hb
        · have hm := Cache.stmt_stmts_isSome_mono d c ds q q'
          rw [heq] at hm
          exact hm
        · have hf := Cache.stmt_namedStmts_frame d c ds q
          rw [heq] at hf
          intro hs
          rw [show c'.namedStmts = c.namedStmts from hf]
          exact hs
      · next h ds'' heq2 =>
        constructor
        · intro q2 hs
          rw [alookup_cons] at hs
          by_cases hq2 : q = q2
          · subst hq2
            have hok : (Cache.stmt d c ds q).1 = .ok cached := by rw [heq]
            have hl := Cache.stmt_ok_lookup d c ds q cached hok
            rw [heq] at hl
            rw [show alookup q c'.stmts = some cached from hl]
            rfl
          · rw [if_neg hq2] at hs
            have hm := Cache.stmt_stmts_isSome_mono d c ds q q2
            rw [heq] at hm
            exact hm (hb.1 q2 hs)
        · intro q2 hs
          have hf := Cache.stmt_namedStmts_frame d c ds q
          rw [heq] at hf
          rw [show c'.namedStmts = c.namedStmts from hf]
          exact hb.2 q2 hs

theorem Tx.stmtContext_preserves_below (d : Driver) (ctx : Context) (c : Cache)
    (tx : Tx) (ds : DriverState) (q : String) (hb : tx.below c) :
    ((Tx.stmtContext d ctx c tx ds q).2.2.1).below
      (Tx.stmtContext d ctx c tx ds q).2.1 := by
  unfold Tx.stmtContext
  split
  · exact hb
  · split
    · next e c' ds' heq =>
      refine Tx.below_mono tx c c' (fun q' => ?_) (fun q' => ?_) hb
      · have hm := Cache.stmtContext_stmts_isSome_mono d ctx c ds q q'
        rw [heq] at hm
        exact hm
      · have hf := Cache.stmtContext_namedStmts_frame d ctx c ds q
        rw [heq] at hf
        intro hs
        rw [show c'.namedStmts = c.namedStmts from hf]
        exact hs
    · next cached c' ds' heq =>
      split
      · refine Tx.below_mono tx c c' (fun q' => ?_) (fun q' => ?_) hb
        · have hm := Cache.stmtContext_stmts_isSome_mono d ctx c ds q q'
          rw [heq] at hm
          exact hm
        · have hf := Cache.stmtContext_namedStmts_frame d ctx c ds q
          rw [heq] at hf
          intro hs
          rw [show c'.namedStmts = c.namedStmts from hf]
          exact hs
      · next h ds'' heq2 =>
        constructor
        · intro q2 hs
          rw [alookup_cons] at hs
          by_cases hq2 : q = q2
          · subst hq2
            have hok : (Cache.stmtContext d ctx c ds q).1 = .ok cached := by rw [heq]
            have hl := Cache.stmtContext_ok_lookup d ctx c ds q cached hok
            rw [heq] at hl
            rw [show alookup q c'.stmts = some cached from hl]
            rfl
          · rw [if_neg hq2] at hs
            have hm := Cache.stmtContext_stmts_isSome_mono d ctx c ds q q2
            rw [heq] at hm
            exact hm (hb.1 q2 hs)
        · intro q2 hs
          have hf := Cache.stmtContext_namedStmts_frame d ctx c ds q
          rw [heq] at hf
          rw [show c'.namedStmts = c.namedStmts from hf]
          exact hb.2 q2 hs

theorem Tx.namedStmt_preserves_below (d : Driver) (c : Cache) (tx : Tx)
    (ds : DriverState) (q : String) (hb : tx.below c) :
    ((Tx.namedStmt d c tx ds q).2.2.1).below (Tx.namedStmt d c tx ds q).2.1 := by
  unfold Tx.namedStmt
  split
  · exact hb
  · split
    · next e c' ds' heq =>
      refine Tx.below_mono tx c c' (fun q' => ?_) (fun q' => ?_) hb
      · have hf := Cache.namedStmt_stmts_frame d c ds q
        rw [heq] at hf
        intro hs
        rw [show c'.stmts = c.stmts from hf]
        exact hs
      · have hm := Cache.namedStmt_namedStmts_isSome_mono d c ds q q'
        rw [heq] at hm
        exact hm
    · next cached c' ds' heq =>
      constructor
      · intro q2 hs
        have hf := Cache.namedStmt_stmts_frame d c ds q
        rw [heq] at hf
        rw [show c'.stmts = c.stmts from hf]
        exact hb.1 q2 hs
      · intro q2 hs
        rw [alookup_cons] at hs
        by_cases hq2 : q = q2
        · subst hq2
          have hok : (Cache.namedStmt d c ds q).1 = .ok cached := by rw [heq]
          have hl := Cache.namedStmt_ok_lookup d c ds q cached hok
          rw [heq] at hl
          rw [show alookup q c'.namedStmts = some cached from hl]
          rfl
        · rw [if_neg hq2] at hs
          have hm := Cache.namedStmt_namedStmts_isSome_mono d c ds q q2
          rw [heq] at hm
          exact hm (hb.2 q2 hs)

theorem Tx.namedStmtContext_preserves_below (d : Driver) (ctx : Context)
    (c : Cache) (tx : Tx) (ds : DriverState) (q : String) (hb : tx.below c) :
    ((Tx.namedStmtContext d ctx c tx ds q).2.2.1).below
      (Tx.namedStmtContext d ctx c tx ds q).2.1 := by
  unfold Tx.namedStmtContext
  split
  · exact hb
  · split
    · next e c' ds' heq =>
      refine Tx.below_mono tx c c' (fun q' => ?_) (fun q' => ?_) hb
      · have hf := Cache.namedStmtContext_stmts_frame d ctx c ds q
        rw [heq] at hf
        intro hs
        rw [show c'.stmts = c.stmts from hf]
        exact hs
      · have hm := Cache.namedStmtContext_namedStmts_isSome_mono d ctx c ds q q'
        rw [heq] at hm
        exact hm
    · next cached c' ds' heq =>
      constructor
      · intro q2 hs
        have hf := Cache.namedStmtContext_stmts_frame d ctx c ds q
        rw [heq] at hf
        rw [show c'.stmts = c.stmts from hf]
        exact hb.1 q2 hs
      · intro q2 hs
        rw [alookup_cons] at hs
        by_cases hq2 : q = q2
        · subst hq2
          have hok : (Cache.namedStmtContext d ctx c ds q).1 = .ok cached := by
            rw [heq]
          have hl := Cache.namedStmtContext_ok_lookup d ctx c ds q cached hok
          rw [heq] at hl
          rw [show alookup q c'.namedStmts = some cached from hl]
          rfl
        · rw [if_neg hq2] at hs
          have hm := Cache.namedStmtContext_namedStmts_isSome_mono d ctx c ds q q2
          rw [heq] at hm
          exact hm (hb.2 q2 hs)

/-- Pool-side effect of `Tx.stmt`: the positional pool map only grows and the
named pool map is untouched. -/
theorem Tx.stmt_pool_mono (d : Driver) (c : Cache) (tx : Tx) (ds : DriverState)
    (q : String) :
    (∀ q', (alookup q' c.stmts).isSome = true →
      (alookup q' (Tx.stmt d c tx ds q).2.1.stmts).isSome = true) ∧
    (Tx.stmt d c tx ds q).2.1.namedStmts = c.namedStmts := by
  unfold Tx.stmt
  split
  · exact ⟨fun q' hs => hs, rfl⟩
  · split
    · next e c' ds' heq =>
      constructor
      · intro q' hs
        have hm := Cache.stmt_stmts_isSome_mono d c ds q q'
        rw [heq] at hm
        exact hm hs
      · have hf := Cache.stmt_namedStmts_frame d c ds q
        rw [heq] at hf
        exact hf
    · next cached c' ds' heq =>
      have hm : ∀ q', (alookup q' c.stmts).isSome = true →
          (alookup q' c'.stmts).isSome = true := by
        intro q' hs
        have hm := Cache.stmt_stmts_isSome_mono d c ds q q'
        rw [heq] at hm
        exact hm hs
      have hf : c'.namedStmts = c.namedStmts := by
        have hf := Cache.stmt_namedStmts_frame d c ds q
        rw [heq] at hf
        exact hf
      split
      · exact ⟨hm, hf⟩
      · exact ⟨hm, hf⟩

theorem Tx.stmtContext_pool_mono (d : Driver) (ctx : Context) (c : Cache) (tx : Tx)
    (ds : DriverState) (q : String) :
    (∀ q', (alookup q' c.stmts).isSome = true →
      (alookup q' (Tx.stmtContext d ctx c tx ds q).2.1.stmts).isSome = true) ∧
    (Tx.stmtContext d ctx c tx ds q).2.1.namedStmts = c.namedStmts := by
  unfold Tx.stmtContext
  split
  · exact ⟨fun q' hs => hs, rfl⟩
  · split
    · next e c' ds' heq =>
      constructor
      · intro q' hs
        have hm := Cache.stmtContext_stmts_isSome_mono d ctx c ds q q'
        rw [heq] at hm
        exact hm hs
      · have hf := Cache.stmtContext_namedStmts_frame d ctx c ds q
        rw [heq] at hf
        exact hf
    · next cached c' ds' heq =>
      have hm : ∀ q', (alookup q' c.stmts).isSome = true →
          (alookup q' c'.stmts).isSome = true := by
        intro q' hs
        have hm := Cache.stmtContext_stmts_isSome_mono d ctx c ds q q'
        rw [heq] at hm
        exact hm hs
      have hf : c'.namedStmts = c.namedStmts := by
        have hf := Cache.stmtContext_namedStmts_frame d ctx c ds q
        rw [heq] at hf
        exact hf
      split
      · exact ⟨hm, hf⟩
      · exact ⟨hm, hf⟩

/-- Pool-side effect of `Tx.namedStmt`: the named pool map only grows and the
positional pool map is untouched. -/
theorem Tx.namedStmt_pool_mono (d : Driver) (c : Cache) (tx : Tx) (ds : DriverState)
    (q : String) :
    (∀ q', (alookup q' c.namedStmts).isSome = true →
      (alookup q' (Tx.namedStmt d c tx ds q).2.1.namedStmts).isSome = true) ∧
    (Tx.namedStmt d c tx ds q).2.1.stmts = c.stmts := by
  unfold Tx.namedStmt
  split
  · exact ⟨fun q' hs => hs, rfl⟩
  · split
    · next e c' ds' heq =>
      constructor
      · intro q' hs
        have hm := Cache.namedStmt_namedStmts_isSome_mono d c ds q q'
        rw [heq] at hm
        exact hm hs
      · have hf := Cache.namedStmt_stmts_frame d c ds q
        rw [heq] at hf
        exact hf
    · next cached c' ds' heq =>
      constructor
      · intro q' hs
        have hm := Cache.namedStmt_namedStmts_isSome_mono d c ds q q'
        rw [heq] at hm
        exact hm hs
      · have hf := Cache.namedStmt_stmts_frame d c ds q
        rw [heq] at hf
        exact hf

theorem Tx.namedStmtContext_pool_mono (d : Driver) (ctx : Context) (c : Cache)
    (tx : Tx) (ds : DriverState) (q : String) :
    (∀ q', (alookup q' c.namedStmts).isSome = true →
      (alookup q'
        (Tx.namedStmtContext d ctx c tx ds q).2.1.namedStmts).isSome = true) ∧
    (Tx.namedStmtContext d ctx c tx ds q).2.1.stmts = c.stmts := by
  unfold Tx.namedStmtContext
  split
  · exact ⟨fun q' hs => hs, rfl⟩
  · split
    · next e c' ds' heq =>
      constructor
      · intro q' hs
        have hm := Cache.namedStmtContext_namedStmts_isSome_mono d ctx c ds q q'
        rw [heq] at hm
        exact hm hs
      · have hf := Cache.namedStmtContext_stmts_frame d ctx c ds q
        rw [heq] at hf
        exact hf
    · next cached c' ds' heq =>
      constructor
      · intro q' hs
        have hm := Cache.namedStmtContext_namedStmts_isSome_mono d ctx c ds q q'
        rw [heq] at hm
        exact hm hs
      · have hf := Cache.namedStmtContext_stmts_frame d ctx c ds q
        rw [heq] at hf
        exact hf

theorem System.init_inv : System.init.inv := by
  intro i hi
  cases hi

/-- Every system step preserves the relationship invariant. -/
theorem sysStep_inv (d : Driver) (s : System) (op : SysOp) (hs : s.inv) :
    (sysStep d s op).inv := by
  cases op with
  | poolStmt q =>
    unfold System.inv at hs ⊢
    simp only [sysStep]
    intro j hj
    exact Tx.below_mono _ _ _
      (fun q' => Cache.stmt_stmts_isSome_mono d s.cache s.driver q q')
      (fun q' hs2 => by rw [Cache.stmt_namedStmts_frame]; exact hs2)
      (hs j hj)
  | poolStmtCtx ctx q =>
    unfold System.inv at hs ⊢
    simp only [sysStep]
    intro j hj
    exact Tx.below_mono _ _ _
      (fun q' => Cache.stmtContext_stmts_isSome_mono d ctx s.cache s.driver q q')
      (fun q' hs2 => by rw [Cache.stmtContext_namedStmts_frame]; exact hs2)
      (hs j hj)
  | poolNamedStmt q =>
    unfold System.inv at hs ⊢
    simp only [sysStep]
    intro j hj
    exact Tx.below_mono _ _ _
      (fun q' hs2 => by rw [Cache.namedStmt_stmts_frame]; exact hs2)
      (fun q' => Cache.namedStmt_namedStmts_isSome_mono d s.cache s.driver q q')
      (hs j hj)
  | poolNamedStmtCtx ctx q =>
    unfold System.inv at hs ⊢
    simp only [sysStep]
    intro j hj
    exact Tx.below_mono _ _ _
      (fun q' hs2 => by rw [Cache.namedStmtContext_stmts_frame]; exact hs2)
      (fun q' => Cache.namedStmtContext_namedStmts_isSome_mono d ctx s.cache
        s.driver q q')
      (hs j hj)
  | beginTx =>
    simp only [sysStep]
    split
    · next tx c' ds' heq =>
      unfold Cache.Begin at heq
      cases hbf : d.beginFail with
      | some e =>
        rw [hbf] at heq
        simp at heq
      | none =>
        rw [hbf] at heq
        simp only [Prod.mk.injEq, Except.ok.injEq] at heq
        obtain ⟨htx, hc, hds⟩ := heq
        unfold System.inv at hs ⊢
        intro j hj
        simp only [List.length_append, List.length_cons, List.length_nil] at hj
        by_cases hlt : j < s.txs.length
        · rw [List.getElem_append_left hlt]
          exact (hc ▸ hs j hlt)
        · have hje : j = s.txs.length := by omega
          rw [List.getElem_append_right (by omega)]
          subst htx hc
          simp [hje]
          exact Tx.new_below s.cache
    · next e c' ds' heq =>
      unfold Cache.Begin at heq
      cases hbf : d.beginFail with
      | some e2 =>
        rw [hbf] at heq
        simp only [Prod.mk.injEq, Except.error.injEq] at heq
        obtain ⟨_, hc, _⟩ := heq
        unfold System.inv at hs ⊢
        intro j hj
        exact (hc ▸ hs j hj)
      | none =>
        rw [hbf] at heq
        simp at heq
  | txStmt i q =>
    simp only [sysStep]
    split
    · next hlen =>
      unfold System.inv at hs ⊢
      intro j hj
      have hj' : j < s.txs.length := by simpa using hj
      rw [List.getElem_set]
      split
      · exact Tx.stmt_preserves_below d s.cache (s.txs[i]) s.driver q
          (hs i hlen)
      · exact Tx.below_mono _ _ _
          (Tx.stmt_pool_mono d s.cache (s.txs[i]) s.driver q).1
          (fun q' hs2 => by
            rw [(Tx.stmt_pool_mono d s.cache (s.txs[i]) s.driver q).2]
            exact hs2)
          (hs j hj')
    · exact hs
  | txStmtCtx i ctx q =>
    simp only [sysStep]
    split
    · next hlen =>
      unfold System.inv at hs ⊢
      intro j hj
      have hj' : j < s.txs.length := by simpa using hj
      rw [List.getElem_set]
      split
      · exact Tx.stmtContext_preserves_below d ctx s.cache (s.txs[i])
          s.driver q (hs i hlen)
      · exact Tx.below_mono _ _ _
          (Tx.stmtContext_pool_mono d ctx s.cache (s.txs[i]) s.driver q).1
          (fun q' hs2 => by
            rw [(Tx.stmtContext_pool_mono d ctx s.cache (s.txs[i])
              s.driver q).2]
            exact hs2)
          (hs j hj')
    · exact hs
  | txNamedStmt i q =>
    simp only [sysStep]
    split
    · next hlen =>
      unfold System.inv at hs ⊢
      intro j hj
      have hj' : j < s.txs.length := by simpa using hj
      rw [List.getElem_set]
      split
      · exact Tx.namedStmt_preserves_below d s.cache (s.txs[i]) s.driver q
          (hs i hlen)
      · exact Tx.below_mono _ _ _
          (fun q' hs2 => by
            rw [(Tx.namedStmt_pool_mono d s.cache (s.txs[i]) s.driver q).2]
            exact hs2)
          (Tx.namedStmt_pool_mono d s.cache (s.txs[i]) s.driver q).1
          (hs j hj')
    · exact hs
  | txNamedStmtCtx i ctx q =>
    simp only [sysStep]
    split
    · next hlen =>
      unfold System.inv at hs ⊢
      intro j hj
      have hj' : j < s.txs.length := by simpa using hj
      rw [List.getElem_set]
      split
      · exact Tx.namedStmtContext_preserves_below d ctx s.cache (s.txs[i])
          s.driver q (hs i hlen)
      · exact Tx.below_mono _ _ _
          (fun q' hs2 => by
            rw [(Tx.namedStmtContext_pool_mono d ctx s.cache (s.txs[i])
              s.driver q).2]
            exact hs2)
          (Tx.namedStmtContext_pool_mono d ctx s.cache (s.txs[i])
            s.driver q).1
          (hs j hj')
    · exact hs
  | txCommit i =>
    simp only [sysStep]
    split
    · next hlen =>
      unfold System.inv at hs ⊢
      intro j hj
      have hj' : j < s.txs.length := by simpa using hj
      rw [List.getElem_set]
      split
      · exact hs i hlen
      · exact hs j hj'
    · exact hs
  | txRollback i =>
    simp only [sysStep]
    split
    · next hlen =>
      unfold System.inv at hs ⊢
      intro j hj
      have hj' : j < s.txs.length := by simpa using hj
      rw [List.getElem_set]
      split
      · exact hs i hlen
      · exact hs j hj'
    · exact hs

/-- **C4**: in every state reachable by any sequence of operations from a
fresh `StatementCache`, every query cached in any begun transaction (in
either namespace) is also cached in the corresponding pool-level map of the
owning cache. -/
theorem claim_C4_tx_entry_implies_pool_entry (d : Driver) (ops : List SysOp) :
    (runSys d ops).inv := by
  have hfold : ∀ s : System, s.inv → (ops.foldl (sysStep d) s).inv := by
    induction ops with
    | nil => exact fun s hs => hs
    | cons op ops ih => exact fun s hs => ih (sysStep d s op) (sysStep_inv d s op hs)
  exact hfold System.init System.init_inv

/-- **C9**: `Tx.Commit` and `Tx.Rollback` delegate to the underlying driver
transaction and change nothing else — the pool-level caches and the
transaction's own maps are exactly what they were before the call — and
`Cache.Close` likewise leaves both pool-level maps unchanged. -/
theorem claim_C9_commit_rollback_close_frame (d : Driver) (c : Cache) (tx : Tx)
    (ds : DriverState) :
    (Tx.Commit d c tx ds).2.1 = c ∧ (Tx.Commit d c tx ds).2.2.1 = tx ∧
    (Tx.Commit d c tx ds).2.2.2 = ds ∧
    (Tx.Rollback d c tx ds).2.1 = c ∧ (Tx.Rollback d c tx ds).2.2.1 = tx ∧
    (Tx.Rollback d c tx ds).2.2.2 = ds ∧
    (Cache.Close d c ds).2.1 = c ∧ (Cache.Close d c ds).2.2 = ds ∧
    (d.commitFail = none → (Tx.Commit d c tx ds).1 = .ok ()) ∧
    (∀ e, d.commitFail = some e → (Tx.Commit d c tx ds).1 = .error e) ∧
    (d.rollbackFail = none → (Tx.Rollback d c tx ds).1 = .ok ()) ∧
    (∀ e, d.rollbackFail = some e → (Tx.Rollback d c tx ds).1 = .error e) ∧
    (d.closeFail = none → (Cache.Close d c ds).1 = .ok ()) ∧
    (∀ e, d.closeFail = some e → (Cache.Close d c ds).1 = .error e) := by
  refine ⟨rfl, rfl, rfl, rfl, rfl, rfl, rfl, rfl, ?_, ?_, ?_, ?_, ?_, ?_⟩
  · intro hn; simp [Tx.Commit, hn]
  · intro e he; simp [Tx.Commit, he]
  · intro hn; simp [Tx.Rollback, hn]
  · intro e he; simp [Tx.Rollback, he]
  · intro hn; simp [Cache.Close, hn]
  · intro e he; simp [Cache.Close, he]

/-- Witness for C9: commit on the all-success driver and on the
failing-transaction driver both leave a concrete cache and transaction
untouched, returning the driver's own verdict. -/
theorem claim_C9_commit_rollback_close_frame_witness :
    (Tx.Commit dOK ⟨[("q", ⟨0, .positional, "q", false⟩)], []⟩
      ⟨[("q", ⟨1, .positional, "q", true⟩)], []⟩ ⟨2, [], []⟩).2.1
      = ⟨[("q", ⟨0, .positional, "q", false⟩)], []⟩ ∧
    (Tx.Commit dOK ⟨[("q", ⟨0, .positional, "q", false⟩)], []⟩
      ⟨[("q", ⟨1, .positional, "q", true⟩)], []⟩ ⟨2, [], []⟩).1 = .ok () ∧
    (Tx.Commit dTXERR Cache.new Tx.new dsEmpty).1 = .error "commit failed" ∧
    (Tx.Rollback dTXERR Cache.new Tx.new dsEmpty).1 = .error "rollback failed" ∧
    (Cache.Close dTXERR Cache.new dsEmpty).1 = .error "close failed" := by
  refine ⟨(claim_C9_commit_rollback_close_frame dOK
      ⟨[("q", ⟨0, .positional, "q", false⟩)], []⟩
      ⟨[("q", ⟨1, .positional, "q", true⟩)], []⟩ ⟨2, [], []⟩).1,
    (claim_C9_commit_rollback_close_frame dOK
      ⟨[("q", ⟨0, .positional, "q", false⟩)], []⟩
      ⟨[("q", ⟨1, .positional, "q", true⟩)], []⟩ ⟨2, [], []⟩).2.2.2.2.2.2.2.2.1 rfl,
    (claim_C9_commit_rollback_close_frame dTXERR Cache.new Tx.new
      dsEmpty).2.2.2.2.2.2.2.2.2.1 "commit failed" rfl,
    (claim_C9_commit_rollback_close_frame dTXERR Cache.new Tx.new
      dsEmpty).2.2.2.2.2.2.2.2.2.2.2.1 "rollback failed" rfl,
    (claim_C9_commit_rollback_close_frame dTXERR Cache.new Tx.new
      dsEmpty).2.2.2.2.2.2.2.2.2.2.2.2.2 "close failed" rfl⟩

/-- **C8**: every single-row operation is exactly its resolution step with
the successful handle packaged, unexecuted, into a row value: it returns an
error precisely when resolution fails, and otherwise the row paired with a
nil error; no driver execution happens (the driver state is the resolution's
one, with no execution logged). -/
theorem claim_C8_single_row_defers_execution (d : Driver) (ctx : Context)
    (c : Cache) (tx : Tx) (ds : DriverState) (q : String) (args : List Nat)
    (arg : Nat) :
    Cache.QueryRow d c ds q args =
      ((Cache.stmt d c ds q).1.map (fun h => ⟨h, args⟩),
        (Cache.stmt d c ds q).2.1, (Cache.stmt d c ds q).2.2) ∧
    Cache.QueryRowContext d ctx c ds q args =
      ((Cache.stmtContext d ctx c ds q).1.map (fun h => ⟨h, args⟩),
        (Cache.stmtContext d ctx c ds q).2.1, (Cache.stmtContext d ctx c ds q).2.2) ∧
    Cache.QueryxRow d c ds q args =
      ((Cache.stmt d c ds q).1.map (fun h => ⟨h, args⟩),
        (Cache.stmt d c ds q).2.1, (Cache.stmt d c ds q).2.2) ∧
    Cache.QueryRowxContext d ctx c ds q args =
      ((Cache.stmtContext d ctx c ds q).1.map (fun h => ⟨h, args⟩),
        (Cache.stmtContext d ctx c ds q).2.1, (Cache.stmtContext d ctx c ds q).2.2) ∧
    Cache.NamedQueryRow d c ds q arg =
      ((Cache.namedStmt d c ds q).1.map (fun h => ⟨h, [arg]⟩),
        (Cache.namedStmt d c ds q).2.1, (Cache.namedStmt d c ds q).2.2) ∧
    Cache.NamedQueryRowContext d ctx c ds q arg =
      ((Cache.namedStmtContext d ctx c ds q).1.map (fun h => ⟨h, [arg]⟩),
        (Cache.namedStmtContext d ctx c ds q).2.1,
        (Cache.namedStmtContext d ctx c ds q).2.2) ∧
    Tx.QueryxRow d c tx ds q args =
      ((Tx.stmt d c tx ds q).1.map (fun h => ⟨h, args⟩),
        (Tx.stmt d c tx ds q).2.1, (Tx.stmt d c tx ds q).2.2.1,
        (Tx.stmt d c tx ds q).2.2.2) ∧
    Tx.QueryRowxContext d ctx c tx ds q args =
      ((Tx.stmtContext d ctx c tx ds q).1.map (fun h => ⟨h, args⟩),
        (Tx.stmtContext d ctx c tx ds q).2.1, (Tx.stmtContext d ctx c tx ds q).2.2.1,
        (Tx.stmtContext d ctx c tx ds q).2.2.2) ∧
    Tx.NamedQueryRow d c tx ds q arg =
      ((Tx.namedStmt d c tx ds q).1.map (fun h => ⟨h, [arg]⟩),
        (Tx.namedStmt d c tx ds q).2.1, (Tx.namedStmt d c tx ds q).2.2.1,
        (Tx.namedStmt d c tx ds q).2.2.2) ∧
    Tx.NamedQueryRowContext d ctx c tx ds q arg =
      ((Tx.namedStmtContext d ctx c tx ds q).1.map (fun h => ⟨h, [arg]⟩),
        (Tx.namedStmtContext d ctx c tx ds q).2.1,
        (Tx.namedStmtContext d ctx c tx ds q).2.2.1,
        (Tx.namedStmtContext d ctx c tx ds q).2.2.2) := by
  refine ⟨?_, ?_, ?_, ?_, ?_, ?_, ?_, ?_, ?_, ?_⟩
  · unfold Cache.QueryRow
    split
    all_goals next heq => rw [heq]; rfl
  · unfold Cache.QueryRowContext
    split
    all_goals next heq => rw [heq]; rfl
  · unfold Cache.QueryxRow
    split
    all_goals next heq => rw [heq]; rfl
  · unfold Cache.QueryRowxContext
    split
    all_goals next heq => rw [heq]; rfl
  · unfold Cache.NamedQueryRow
    split
    all_goals next heq => rw [heq]; rfl
  · unfold Cache.NamedQueryRowContext
    split
    all_goals next heq => rw [heq]; rfl
  · unfold Tx.QueryxRow
    split
    all_goals next heq => rw [heq]; rfl
  · unfold Tx.QueryRowxContext
    split
    all_goals next heq => rw [heq]; rfl
  · unfold Tx.NamedQueryRow
    split
    all_goals next heq => rw [heq]; rfl
  · unfold Tx.NamedQueryRowContext
    split
    all_goals next heq => rw [heq]; rfl

/-! ## Equations for transaction-level resolution -/

theorem Tx.stmt_tx_hit (d : Driver) (c : Cache) (tx : Tx) (ds : DriverState)
    (q : String) (h : Handle) (hh : alookup q tx.stmts = some h) :
    Tx.stmt d c tx ds q = (.ok h, c, tx, ds) := by
  unfold Tx.stmt
  rw [hh]

theorem Tx.stmt_miss_poolhit (d : Driver) (c : Cache) (tx : Tx) (ds : DriverState)
    (q : String) (h : Handle) (htx : alookup q tx.stmts = none)
    (hph : alookup q c.stmts = some h) (hk : h.kind = .positional) :
    Tx.stmt d c tx ds q =
      (.ok ⟨ds.nextId, .positional, h.query, true⟩, c,
        ⟨(q, ⟨ds.nextId, .positional, h.query, true⟩) :: tx.stmts, tx.namedStmts⟩,
        { ds with nextId := ds.nextId + 1 }) := by
  unfold Tx.stmt
  rw [htx, Cache.stmt_hit d c ds q h hph]
  simp [stmtxBind, hk]

theorem Tx.stmt_miss_fail (d : Driver) (c : Cache) (tx : Tx) (ds : DriverState)
    (q : String) (e : String) (htx : alookup q tx.stmts = none)
    (hpl : alookup q c.stmts = none) (hp : d.prepFail q = some e) :
    Tx.stmt d c tx ds q =
      (.err e, c, tx,
        { ds with prepCalls := ds.prepCalls ++ [⟨.positional, q, false⟩] }) := by
  unfold Tx.stmt
  rw [htx, Cache.stmt_miss_err d c ds q e hpl hp]

theorem Tx.stmt_miss_create (d : Driver) (c : Cache) (tx : Tx) (ds : DriverState)
    (q : String) (htx : alookup q tx.stmts = none)
    (hpl : alookup q c.stmts = none) (hp : d.prepFail q = none) :
    Tx.stmt d c tx ds q =
      (.ok ⟨ds.nextId + 1, .positional, q, true⟩,
        { c with stmts := (q, ⟨ds.nextId, .positional, q, false⟩) :: c.stmts },
        ⟨(q, ⟨ds.nextId + 1, .positional, q, true⟩) :: tx.stmts, tx.namedStmts⟩,
        { ds with nextId := ds.nextId + 1 + 1,
                  prepCalls := ds.prepCalls ++ [⟨.positional, q, true⟩] }) := by
  unfold Tx.stmt
  rw [htx, Cache.stmt_miss_ok d c ds q hpl hp]
  simp [stmtxBind]

theorem Tx.namedStmt_tx_hit (d : Driver) (c : Cache) (tx : Tx) (ds : DriverState)
    (q : String) (h : Handle) (hh : alookup q tx.namedStmts = some h) :
    Tx.namedStmt d c tx ds q = (.ok h, c, tx, ds) := by
  unfold Tx.namedStmt
  rw [hh]

theorem Tx.namedStmt_miss_poolhit (d : Driver) (c : Cache) (tx : Tx)
    (ds : DriverState) (q : String) (h : Handle)
    (htx : alookup q tx.namedStmts = none) (hph : alookup q c.namedStmts = some h) :
    Tx.namedStmt d c tx ds q =
      (.ok ⟨ds.nextId, .named, h.query, true⟩, c,
        ⟨tx.stmts, (q, ⟨ds.nextId, .named, h.query, true⟩) :: tx.namedStmts⟩,
        { ds with nextId := ds.nextId + 1 }) := by
  unfold Tx.namedStmt
  rw [htx, Cache.namedStmt_hit d c ds q h hph]
  simp [namedStmtBind]

theorem Tx.namedStmt_miss_fail (d : Driver) (c : Cache) (tx : Tx)
    (ds : DriverState) (q : String) (e : String)
    (htx : alookup q tx.namedStmts = none) (hpl : alookup q c.namedStmts = none)
    (hp : d.prepNamedFail q = some e) :
    Tx.namedStmt d c tx ds q =
      (.err e, c, tx,
        { ds with prepCalls := ds.prepCalls ++ [⟨.named, q, false⟩] }) := by
  unfold Tx.namedStmt
  rw [htx, Cache.namedStmt_miss_err d c ds q e hpl hp]

theorem Tx.namedStmt_miss_create (d : Driver) (c : Cache) (tx : Tx)
    (ds : DriverState) (q : String) (htx : alookup q tx.namedStmts = none)
    (hpl : alookup q c.namedStmts = none) (hp : d.prepNamedFail q = none) :
    Tx.namedStmt d c tx ds q =
      (.ok ⟨ds.nextId + 1, .named, q, true⟩,
        { c with namedStmts := (q, ⟨ds.nextId, .named, q, false⟩) :: c.namedStmts },
        ⟨tx.stmts, (q, ⟨ds.nextId + 1, .named, q, true⟩) :: tx.namedStmts⟩,
        { ds with nextId := ds.nextId + 1 + 1,
                  prepCalls := ds.prepCalls ++ [⟨.named, q, true⟩] }) := by
  unfold Tx.namedStmt
  rw [htx, Cache.namedStmt_miss_ok d c ds q hpl hp]
  simp [namedStmtBind]

/-! ## C7 — forwarding operations execute the resolved handle (amended) -/

/-- **C7 (amended)**: every forwarding operation on a transaction first runs
the four-step resolution and propagates its outcome states; on successful
resolution of handle `h`, the operations `Exec`, `ExecContext`, `Query`,
`Queryx`, `Get`, `Select`, `NamedExec`, `NamedQuery` and `NamedQueryx`
execute exactly `h` with the supplied arguments, surfacing the driver's
result or error unchanged — but `NamedGet`, `NamedGetContext`, `NamedSelect`
and `NamedSelectContext` re-bind the already-transaction-bound resolved
handle into the transaction a second time and execute that fresh re-bound
copy (same kind and query text, fresh identity) instead of `h` itself. -/
theorem claim_C7_forwarding_execution (d : Driver) (ctx : Context) (c c' : Cache)
    (tx tx' : Tx) (ds ds' : DriverState) (q : String) (args : List Nat)
    (arg : Nat) (h : Handle) :
    (Tx.stmt d c tx ds q = (.ok h, c', tx', ds') →
      Tx.Exec d c tx ds q args =
        (Outcome.ofExcept (d.run .exec h.kind h.inTx h.query args), c', tx',
          { ds' with execLog := ds'.execLog ++ [⟨.exec, h, args⟩] }) ∧
      Tx.Query d c tx ds q args =
        (Outcome.ofExcept (d.run .query h.kind h.inTx h.query args), c', tx',
          { ds' with execLog := ds'.execLog ++ [⟨.query, h, args⟩] }) ∧
      Tx.Queryx d c tx ds q args =
        (Outcome.ofExcept (d.run .queryx h.kind h.inTx h.query args), c', tx',
          { ds' with execLog := ds'.execLog ++ [⟨.queryx, h, args⟩] }) ∧
      Tx.Get d c tx ds q args =
        (Outcome.ofExcept (d.run .get h.kind h.inTx h.query args), c', tx',
          { ds' with execLog := ds'.execLog ++ [⟨.get, h, args⟩] }) ∧
      Tx.Select d c tx ds q args =
        (Outcome.ofExcept (d.run .select h.kind h.inTx h.query args), c', tx',
          { ds' with execLog := ds'.execLog ++ [⟨.select, h, args⟩] })) ∧
    (Tx.stmtContext d ctx c tx ds q = (.ok h, c', tx', ds') →
      Tx.ExecContext d ctx c tx ds q args =
        (Outcome.ofExcept (d.run .exec h.kind h.inTx h.query args), c', tx',
          { ds' with execLog := ds'.execLog ++ [⟨.exec, h, args⟩] })) ∧
    (Tx.namedStmt d c tx ds q = (.ok h, c', tx', ds') →
      Tx.NamedExec d c tx ds q arg =
        (Outcome.ofExcept (d.run .exec h.kind h.inTx h.query [arg]), c', tx',
          { ds' with execLog := ds'.execLog ++ [⟨.exec, h, [arg]⟩] }) ∧
      Tx.NamedQuery d c tx ds q arg =
        (Outcome.ofExcept (d.run .query h.kind h.inTx h.query [arg]), c', tx',
          { ds' with execLog := ds'.execLog ++ [⟨.query, h, [arg]⟩] }) ∧
      Tx.NamedQueryx d c tx ds q arg =
        (Outcome.ofExcept (d.run .queryx h.kind h.inTx h.query [arg]), c', tx',
          { ds' with execLog := ds'.execLog ++ [⟨.queryx, h, [arg]⟩] }) ∧
      Tx.NamedGet d c tx ds q arg =
        (Outcome.ofExcept (d.run .get .named true h.query [arg]), c', tx',
          { ds' with
              nextId := ds'.nextId + 1,
              execLog := ds'.execLog
                ++ [⟨.get, ⟨ds'.nextId, .named, h.query, true⟩, [arg]⟩] }) ∧
      Tx.NamedSelect d c tx ds q arg =
        (Outcome.ofExcept (d.run .select .named true h.query [arg]), c', tx',
          { ds' with
              nextId := ds'.nextId + 1,
              execLog := ds'.execLog
                ++ [⟨.select, ⟨ds'.nextId, .named, h.query, true⟩, [arg]⟩] })) ∧
    (Tx.namedStmtContext d ctx c tx ds q = (.ok h, c', tx', ds') →
      Tx.NamedGetContext d ctx c tx ds q arg =
        (Outcome.ofExcept (d.run .get .named true h.query [arg]), c', tx',
          { ds' with
              nextId := ds'.nextId + 1,
              execLog := ds'.execLog
                ++ [⟨.get, ⟨ds'.nextId, .named, h.query, true⟩, [arg]⟩] }) ∧
      Tx.NamedSelectContext d ctx c tx ds q arg =
        (Outcome.ofExcept (d.run .select .named true h.query [arg]), c', tx',
          { ds' with
              nextId := ds'.nextId + 1,
              execLog := ds'.execLog
                ++ [⟨.select, ⟨ds'.nextId, .named, h.query, true⟩, [arg]⟩] })) := by
  refine ⟨fun hres => ⟨?_, ?_, ?_, ?_, ?_⟩, fun hres => ?_,
    fun hres => ⟨?_, ?_, ?_, ?_, ?_⟩, fun hres => ⟨?_, ?_⟩⟩
  · unfold Tx.Exec; rw [hres]; rfl
  · unfold Tx.Query; rw [hres]; rfl
  · unfold Tx.Queryx; rw [hres]; rfl
  · unfold Tx.Get; rw [hres]; rfl
  · unfold Tx.Select; rw [hres]; rfl
  · unfold Tx.ExecContext; rw [hres]; rfl
  · unfold Tx.NamedExec; rw [hres]; rfl
  · unfold Tx.NamedQuery; rw [hres]; rfl
  · unfold Tx.NamedQueryx; rw [hres]; rfl
  · unfold Tx.NamedGet; rw [hres]; rfl
  · unfold Tx.NamedSelect; rw [hres]; rfl
  · unfold Tx.NamedGetContext; rw [hres]; rfl
  · unfold Tx.NamedSelectContext; rw [hres]; rfl

/-- Counterexample to C7 as stated: on a concrete run, `Tx.NamedGet` stores
handle `1` in the transaction's named cache as the result of resolution, yet
the handle it hands to the driver's get primitive is the re-bound copy `2` —
a forwarding operation that re-wraps after resolution. -/
theorem claim_C7_counterexample :
    (Tx.NamedGet dOK Cache.new Tx.new dsEmpty "q" 5).2.2.2.execLog
      = [⟨.get, ⟨2, .named, "q", true⟩, [5]⟩] ∧
    alookup "q" (Tx.NamedGet dOK Cache.new Tx.new dsEmpty "q" 5).2.2.1.namedStmts
      = some ⟨1, .named, "q", true⟩ ∧
    (⟨2, .named, "q", true⟩ : Handle) ≠ ⟨1, .named, "q", true⟩ := by
  decide

/-- Witness for the amended C7: the `Exec` and `NamedGet` equations evaluated
on a concrete first-use run. -/
theorem claim_C7_forwarding_execution_witness :
    Tx.Exec dOK Cache.new Tx.new dsEmpty "q" [7] =
      (.ok 0, ⟨[("q", ⟨0, .positional, "q", false⟩)], []⟩,
        ⟨[("q", ⟨1, .positional, "q", true⟩)], []⟩,
        ⟨2, [⟨.positional, "q", true⟩],
          [⟨.exec, ⟨1, .positional, "q", true⟩, [7]⟩]⟩) ∧
    Tx.NamedGet dOK Cache.new Tx.new dsEmpty "q" 5 =
      (.ok 0, ⟨[], [("q", ⟨0, .named, "q", false⟩)]⟩,
        ⟨[], [("q", ⟨1, .named, "q", true⟩)]⟩,
        ⟨3, [⟨.named, "q", true⟩], [⟨.get, ⟨2, .named, "q", true⟩, [5]⟩]⟩) := by
  have h1 := (claim_C7_forwarding_execution dOK ⟨false⟩ Cache.new
    ⟨[("q", ⟨0, .positional, "q", false⟩)], []⟩ Tx.new
    ⟨[("q", ⟨1, .positional, "q", true⟩)], []⟩ dsEmpty
    ⟨2, [⟨.positional, "q", true⟩], []⟩ "q" [7] 5
    ⟨1, .positional, "q", true⟩).1 (by decide)
  have h2 := (claim_C7_forwarding_execution dOK ⟨false⟩ Cache.new
    ⟨[], [("q", ⟨0, .named, "q", false⟩)]⟩ Tx.new
    ⟨[], [("q", ⟨1, .named, "q", true⟩)]⟩ dsEmpty
    ⟨2, [⟨.named, "q", true⟩], []⟩ "q" [7] 5
    ⟨1, .named, "q", true⟩).2.2.1 (by decide)
  exact ⟨h1.1, h2.2.2.2.1⟩

theorem TxV1.Exec_eq_posRunV1 (d : Driver) (c : Cache) (ds : DriverState)
    (q : String) (args : List Nat) :
    TxV1.Exec d c ds q args = TxV1.posRun d c ds .exec q args := rfl

theorem TxV1.Query_eq_posRunV1 (d : Driver) (c : Cache) (ds : DriverState)
    (q : String) (args : List Nat) :
    TxV1.Query d c ds q args = TxV1.posRun d c ds .query q args := rfl

theorem TxV1.Queryx_eq_posRunV1 (d : Driver) (c : Cache) (ds : DriverState)
    (q : String) (args : List Nat) :
    TxV1.Queryx d c ds q args = TxV1.posRun d c ds .queryx q args := rfl

theorem TxV1.Get_eq_posRunV1 (d : Driver) (c : Cache) (ds : DriverState)
    (q : String) (args : List Nat) :
    TxV1.Get d c ds q args = TxV1.posRun d c ds .get q args := rfl

theorem TxV1.Select_eq_posRunV1 (d : Driver) (c : Cache) (ds : DriverState)
    (q : String) (args : List Nat) :
    TxV1.Select d c ds q args = TxV1.posRun d c ds .select q args := rfl

theorem TxV1.NamedExec_eq_namedRun (d : Driver) (c : Cache) (ds : DriverState)
    (q : String) (arg : Nat) :
    TxV1.NamedExec d c ds q arg = TxV1.namedRun d c ds .exec q arg := rfl

theorem TxV1.GetNamed_eq_namedRun (d : Driver) (c : Cache) (ds : DriverState)
    (q : String) (arg : Nat) :
    TxV1.GetNamed d c ds q arg = TxV1.namedRun d c ds .get q arg := rfl

theorem TxV1.NamedSelect_eq_namedRun (d : Driver) (c : Cache) (ds : DriverState)
    (q : String) (arg : Nat) :
    TxV1.NamedSelect d c ds q arg = TxV1.namedRun d c ds .select q arg := rfl

theorem TxV1.NamedQuery_eq_namedStmtxRun (d : Driver) (c : Cache)
    (ds : DriverState) (q : String) (arg : Nat) :
    TxV1.NamedQuery d c ds q arg = TxV1.namedStmtxRun d c ds .query q arg := rfl

theorem TxV1.NamedQueryx_eq_namedStmtxRun (d : Driver) (c : Cache)
    (ds : DriverState) (q : String) (arg : Nat) :
    TxV1.NamedQueryx d c ds q arg = TxV1.namedStmtxRun d c ds .queryx q arg := rfl

theorem Tx.Exec_eq_posRun (d : Driver) (c : Cache) (tx : Tx) (ds : DriverState)
    (q : String) (args : List Nat) :
    Tx.Exec d c tx ds q args = Tx.posRun d c tx ds .exec q args := rfl

theorem Tx.Query_eq_posRun (d : Driver) (c : Cache) (tx : Tx) (ds : DriverState)
    (q : String) (args : List Nat) :
    Tx.Query d c tx ds q args = Tx.posRun d c tx ds .query q args := rfl

theorem Tx.Queryx_eq_posRun (d : Driver) (c : Cache) (tx : Tx) (ds : DriverState)
    (q : String) (args : List Nat) :
    Tx.Queryx d c tx ds q args = Tx.posRun d c tx ds .queryx q args := rfl

theorem Tx.Get_eq_posRun (d : Driver) (c : Cache) (tx : Tx) (ds : DriverState)
    (q : String) (args : List Nat) :
    Tx.Get d c tx ds q args = Tx.posRun d c tx ds .get q args := rfl

theorem Tx.Select_eq_posRun (d : Driver) (c : Cache) (tx : Tx) (ds : DriverState)
    (q : String) (args : List Nat) :
    Tx.Select d c tx ds q args = Tx.posRun d c tx ds .select q args := rfl

theorem Tx.NamedExec_eq_namedRunDirect (d : Driver) (c : Cache) (tx : Tx)
    (ds : DriverState) (q : String) (arg : Nat) :
    Tx.NamedExec d c tx ds q arg = Tx.namedRunDirect d c tx ds .exec q arg := rfl

theorem Tx.NamedQuery_eq_namedRunDirect (d : Driver) (c : Cache) (tx : Tx)
    (ds : DriverState) (q : String) (arg : Nat) :
    Tx.NamedQuery d c tx ds q arg = Tx.namedRunDirect d c tx ds .query q arg := rfl

theorem Tx.NamedQueryx_eq_namedRunDirect (d : Driver) (c : Cache) (tx : Tx)
    (ds : DriverState) (q : String) (arg : Nat) :
    Tx.NamedQueryx d c tx ds q arg = Tx.namedRunDirect d c tx ds .queryx q arg := rfl

theorem Tx.NamedGet_eq_namedRunRebind (d : Driver) (c : Cache) (tx : Tx)
    (ds : DriverState) (q : String) (arg : Nat) :
    Tx.NamedGet d c tx ds q arg = Tx.namedRunRebind d c tx ds .get q arg := rfl

theorem Tx.NamedSelect_eq_namedRunRebind (d : Driver) (c : Cache) (tx : Tx)
    (ds : DriverState) (q : String) (arg : Nat) :
    Tx.NamedSelect d c tx ds q arg = Tx.namedRunRebind d c tx ds .select q arg := rfl

theorem alookup_isSome_cons (k : String) (v : Handle) (l : List (String × Handle))
    (q : String) (hs : (alookup q l).isSome = true) :
    (alookup q ((k, v) :: l)).isSome = true := by
  rw [alookup_cons]
  split
  · rfl
  · exact hs

theorem alookup_isSome_cons_eq (k : String) (v₁ v₂ : Handle)
    (l₁ l₂ : List (String × Handle))
    (hpt : ∀ q, (alookup q l₁).isSome = (alookup q l₂).isSome) (q : String) :
    (alookup q ((k, v₁) :: l₁)).isSome = (alookup q ((k, v₂) :: l₂)).isSome := by
  rw [alookup_cons, alookup_cons]
  by_cases hk : k = q
  · simp [hk]
  · simp [hk, hpt q]

theorem Cache.PoolWf_cons_pos (c : Cache) (q : String) (h : Handle)
    (hwf : c.PoolWf) (hk : h.kind = .positional) (hq : h.query = q)
    (hin : h.inTx = false) :
    Cache.PoolWf { c with stmts := (q, h) :: c.stmts } := by
  constructor
  · intro q2 h2 hh2
    rw [alookup_cons] at hh2
    split at hh2
    · next heq =>
      cases hh2
      exact ⟨hk, heq ▸ hq, hin⟩
    · exact hwf.pos q2 h2 hh2
  · exact hwf.named

theorem Cache.PoolWf_cons_named (c : Cache) (q : String) (h : Handle)
    (hwf : c.PoolWf) (hk : h.kind = .named) (hq : h.query = q)
    (hin : h.inTx = false) :
    Cache.PoolWf { c with namedStmts := (q, h) :: c.namedStmts } := by
  constructor
  · exact hwf.pos
  · intro q2 h2 hh2
    rw [alookup_cons] at hh2
    split at hh2
    · next heq =>
      cases hh2
      exact ⟨hk, heq ▸ hq, hin⟩
    · exact hwf.named q2 h2 hh2

theorem Tx.TxWf_cons_pos (tx : Tx) (q : String) (h : Handle) (htwf : tx.TxWf)
    (hk : h.kind = .positional) (hq : h.query = q) (hin : h.inTx = true) :
    Tx.TxWf ⟨(q, h) :: tx.stmts, tx.namedStmts⟩ := by
  constructor
  · intro q2 h2 hh2
    rw [alookup_cons] at hh2
    split at hh2
    · next heq =>
      cases hh2
      exact ⟨hk, heq ▸ hq, hin⟩
    · exact htwf.pos q2 h2 hh2
  · exact htwf.named

theorem Tx.TxWf_cons_named (tx : Tx) (q : String) (h : Handle) (htwf : tx.TxWf)
    (hk : h.kind = .named) (hq : h.query = q) (hin : h.inTx = true) :
    Tx.TxWf ⟨tx.stmts, (q, h) :: tx.namedStmts⟩ := by
  constructor
  · exact htwf.pos
  · intro q2 h2 hh2
    rw [alookup_cons] at hh2
    split at hh2
    · next heq =>
      cases hh2
      exact ⟨hk, heq ▸ hq, hin⟩
    · exact htwf.named q2 h2 hh2

theorem Tx.below_cons_pos (tx : Tx) (c : Cache) (q : String) (h : Handle)
    (hb : tx.below c) (hc : (alookup q c.stmts).isSome = true) :
    Tx.below ⟨(q, h) :: tx.stmts, tx.namedStmts⟩ c := by
  constructor
  · intro q2 hs
    rw [alookup_cons] at hs
    by_cases hq2 : q = q2
    · exact hq2 ▸ hc
    · rw [if_neg hq2] at hs
      exact hb.1 q2 hs
  · exact hb.2

theorem Tx.below_cons_named (tx : Tx) (c : Cache) (q : String) (h : Handle)
    (hb : tx.below c) (hc : (alookup q c.namedStmts).isSome = true) :
    Tx.below ⟨tx.stmts, (q, h) :: tx.namedStmts⟩ c := by
  constructor
  · exact hb.1
  · intro q2 hs
    rw [alookup_cons] at hs
    by_cases hq2 : q = q2
    · exact hq2 ▸ hc
    · rw [if_neg hq2] at hs
      exact hb.2 q2 hs

/-- Observational equivalence of the positional forwarding shape: under the
simulation relation both versions return the same outcome, and the relation
is re-established on the successor states. -/
theorem sim_posRun (d : Driver) (c₁ c₂ : Cache) (tx : Tx) (ds₁ ds₂ : DriverState)
    (m : Method) (q : String) (args : List Nat) (hsim : Sim c₁ c₂ tx) :
    (TxV1.posRun d c₁ ds₁ m q args).1 = (Tx.posRun d c₂ tx ds₂ m q args).1 ∧
    Sim (TxV1.posRun d c₁ ds₁ m q args).2.1 (Tx.posRun d c₂ tx ds₂ m q args).2.1
      (Tx.posRun d c₂ tx ds₂ m q args).2.2.1 := by
  cases htx : alookup q tx.stmts with
  | some h₂ =>
    obtain ⟨hk2, hq2, hin2⟩ := hsim.twf.pos q h₂ htx
    have hsome2 : (alookup q c₂.stmts).isSome = true :=
      hsim.tbelow.1 q (by rw [htx]; rfl)
    have hsome1 : (alookup q c₁.stmts).isSome = true := by
      rw [hsim.posSome q]; exact hsome2
    obtain ⟨h₁, hh1⟩ := Option.isSome_iff_exists.mp hsome1
    obtain ⟨hk1, hq1, hin1⟩ := hsim.wf1.pos q h₁ hh1
    have hbind : stmtxBind h₁ ds₁ =
        some (⟨ds₁.nextId, .positional, h₁.query, true⟩,
          { ds₁ with nextId := ds₁.nextId + 1 }) := by
      simp [stmtxBind, hk1]
    unfold TxV1.posRun Tx.posRun
    rw [Cache.stmt_hit d c₁ ds₁ q h₁ hh1, Tx.stmt_tx_hit d c₂ tx ds₂ q h₂ htx]
    simp only [hbind]
    constructor
    · simp [execute, hq1, hk2, hin2, hq2]
    · exact hsim
  | none =>
    cases hp2 : alookup q c₂.stmts with
    | some h₂ =>
      obtain ⟨hk2, hq2, hin2⟩ := hsim.wf2.pos q h₂ hp2
      have hsome1 : (alookup q c₁.stmts).isSome = true := by
        rw [hsim.posSome q, hp2]; rfl
      obtain ⟨h₁, hh1⟩ := Option.isSome_iff_exists.mp hsome1
      obtain ⟨hk1, hq1, hin1⟩ := hsim.wf1.pos q h₁ hh1
      have hbind : stmtxBind h₁ ds₁ =
          some (⟨ds₁.nextId, .positional, h₁.query, true⟩,
            { ds₁ with nextId := ds₁.nextId + 1 }) := by
        simp [stmtxBind, hk1]
      unfold TxV1.posRun Tx.posRun
      rw [Cache.stmt_hit d c₁ ds₁ q h₁ hh1,
        Tx.stmt_miss_poolhit d c₂ tx ds₂ q h₂ htx hp2 hk2]
      simp only [hbind]
      constructor
      · simp [execute, hq1, hq2]
      · exact ⟨hsim.posSome, hsim.namedSome, hsim.wf1, hsim.wf2,
          Tx.TxWf_cons_pos tx q ⟨ds₂.nextId, .positional, h₂.query, true⟩
            hsim.twf rfl hq2 rfl,
          Tx.below_cons_pos tx c₂ q ⟨ds₂.nextId, .positional, h₂.query, true⟩
            hsim.tbelow (by rw [hp2]; rfl)⟩
    | none =>
      have hp1 : alookup q c₁.stmts = none := by
        have hps := hsim.posSome q
        rw [hp2] at hps
        cases hl1 : alookup q c₁.stmts with
        | none => rfl
        | some v => rw [hl1] at hps; cases hps
      cases hpf : d.prepFail q with
      | some e =>
        unfold TxV1.posRun Tx.posRun
        rw [Cache.stmt_miss_err d c₁ ds₁ q e hp1 hpf,
          Tx.stmt_miss_fail d c₂ tx ds₂ q e htx hp2 hpf]
        exact ⟨rfl, hsim⟩
      | none =>
        have hbind : stmtxBind (⟨ds₁.nextId, .positional, q, false⟩ : Handle)
            { ds₁ with nextId := ds₁.nextId + 1,
                       prepCalls := ds₁.prepCalls ++ [⟨.positional, q, true⟩] } =
            some (⟨ds₁.nextId + 1, .positional, q, true⟩,
              { ds₁ with nextId := ds₁.nextId + 1 + 1,
                         prepCalls := ds₁.prepCalls ++ [⟨.positional, q, true⟩] }) := by
          simp [stmtxBind]
        unfold TxV1.posRun Tx.posRun
        rw [Cache.stmt_miss_ok d c₁ ds₁ q hp1 hpf,
          Tx.stmt_miss_create d c₂ tx ds₂ q htx hp2 hpf]
        simp only [hbind]
        constructor
        · simp [execute]
        · refine ⟨alookup_isSome_cons_eq q ⟨ds₁.nextId, .positional, q, false⟩
              ⟨ds₂.nextId, .positional, q, false⟩ c₁.stmts c₂.stmts hsim.posSome,
            hsim.namedSome,
            Cache.PoolWf_cons_pos c₁ q ⟨ds₁.nextId, .positional, q, false⟩
              hsim.wf1 rfl rfl rfl,
            Cache.PoolWf_cons_pos c₂ q ⟨ds₂.nextId, .positional, q, false⟩
              hsim.wf2 rfl rfl rfl,
            Tx.TxWf_cons_pos tx q ⟨ds₂.nextId + 1, .positional, q, true⟩
              hsim.twf rfl rfl rfl,
            Tx.below_cons_pos tx
              { c₂ with stmts := (q, ⟨ds₂.nextId, .positional, q, false⟩) :: c₂.stmts }
              q ⟨ds₂.nextId + 1, .positional, q, true⟩
              (Tx.below_mono tx c₂ _
                (fun q' hs => alookup_isSome_cons q
                  ⟨ds₂.nextId, .positional, q, false⟩ c₂.stmts q' hs)
                (fun q' hs => hs) hsim.tbelow)
              (by rw [alookup_cons]; simp)⟩

/-- Observational equivalence of the named forwarding shape whose later
version executes the resolved handle directly (`NamedExec`). -/
theorem sim_namedRunDirect (d : Driver) (c₁ c₂ : Cache) (tx : Tx)
    (ds₁ ds₂ : DriverState) (m : Method) (q : String) (arg : Nat)
    (hsim : Sim c₁ c₂ tx) :
    (TxV1.namedRun d c₁ ds₁ m q arg).1 = (Tx.namedRunDirect d c₂ tx ds₂ m q arg).1 ∧
    Sim (TxV1.namedRun d c₁ ds₁ m q arg).2.1
      (Tx.namedRunDirect d c₂ tx ds₂ m q arg).2.1
      (Tx.namedRunDirect d c₂ tx ds₂ m q arg).2.2.1 := by
  cases htx : alookup q tx.namedStmts with
  | some h₂ =>
    obtain ⟨hk2, hq2, hin2⟩ := hsim.twf.named q h₂ htx
    have hsome2 : (alookup q c₂.namedStmts).isSome = true :=
      hsim.tbelow.2 q (by rw [htx]; rfl)
    have hsome1 : (alookup q c₁.namedStmts).isSome = true := by
      rw [hsim.namedSome q]; exact hsome2
    obtain ⟨h₁, hh1⟩ := Option.isSome_iff_exists.mp hsome1
    obtain ⟨hk1, hq1, hin1⟩ := hsim.wf1.named q h₁ hh1
    unfold TxV1.namedRun Tx.namedRunDirect
    rw [Cache.namedStmt_hit d c₁ ds₁ q h₁ hh1,
      Tx.namedStmt_tx_hit d c₂ tx ds₂ q h₂ htx]
    constructor
    · simp [namedStmtBind, execute, hq1, hk2, hin2, hq2]
    · exact hsim
  | none =>
    cases hp2 : alookup q c₂.namedStmts with
    | some h₂ =>
      obtain ⟨hk2, hq2, hin2⟩ := hsim.wf2.named q h₂ hp2
      have hsome1 : (alookup q c₁.namedStmts).isSome = true := by
        rw [hsim.namedSome q, hp2]; rfl
      obtain ⟨h₁, hh1⟩ := Option.isSome_iff_exists.mp hsome1
      obtain ⟨hk1, hq1, hin1⟩ := hsim.wf1.named q h₁ hh1
      unfold TxV1.namedRun Tx.namedRunDirect
      rw [Cache.namedStmt_hit d c₁ ds₁ q h₁ hh1,
        Tx.namedStmt_miss_poolhit d c₂ tx ds₂ q h₂ htx hp2]
      constructor
      · simp [namedStmtBind, execute, hq1, hq2]
      · exact ⟨hsim.posSome, hsim.namedSome, hsim.wf1, hsim.wf2,
          Tx.TxWf_cons_named tx q ⟨ds₂.nextId, .named, h₂.query, true⟩
            hsim.twf rfl hq2 rfl,
          Tx.below_cons_named tx c₂ q ⟨ds₂.nextId, .named, h₂.query, true⟩
            hsim.tbelow (by rw [hp2]; rfl)⟩
    | none =>
      have hp1 : alookup q c₁.namedStmts = none := by
        have hps := hsim.namedSome q
        rw [hp2] at hps
        cases hl1 : alookup q c₁.namedStmts with
        | none => rfl
        | some v => rw [hl1] at hps; cases hps
      cases hpf : d.prepNamedFail q with
      | some e =>
        unfold TxV1.namedRun Tx.namedRunDirect
        rw [Cache.namedStmt_miss_err d c₁ ds₁ q e hp1 hpf,
          Tx.namedStmt_miss_fail d c₂ tx ds₂ q e htx hp2 hpf]
        exact ⟨rfl, hsim⟩
      | none =>
        unfold TxV1.namedRun Tx.namedRunDirect
        rw [Cache.namedStmt_miss_ok d c₁ ds₁ q hp1 hpf,
          Tx.namedStmt_miss_create d c₂ tx ds₂ q htx hp2 hpf]
        constructor
        · simp [namedStmtBind, execute]
        · refine ⟨hsim.posSome,
            alookup_isSome_cons_eq q ⟨ds₁.nextId, .named, q, false⟩
              ⟨ds₂.nextId, .named, q, false⟩ c₁.namedStmts c₂.namedStmts
              hsim.namedSome,
            Cache.PoolWf_cons_named c₁ q ⟨ds₁.nextId, .named, q, false⟩
              hsim.wf1 rfl rfl rfl,
            Cache.PoolWf_cons_named c₂ q ⟨ds₂.nextId, .named, q, false⟩
              hsim.wf2 rfl rfl rfl,
            Tx.TxWf_cons_named tx q ⟨ds₂.nextId + 1, .named, q, true⟩
              hsim.twf rfl rfl rfl,
            Tx.below_cons_named tx
              { c₂ with
                  namedStmts := (q, ⟨ds₂.nextId, .named, q, false⟩) :: c₂.namedStmts }
              q ⟨ds₂.nextId + 1, .named, q, true⟩
              (Tx.below_mono tx c₂ _ (fun q' hs => hs)
                (fun q' hs => alookup_isSome_cons q
                  ⟨ds₂.nextId, .named, q, false⟩ c₂.namedStmts q' hs)
                hsim.tbelow)
              (by rw [alookup_cons]; simp)⟩

/-- Observational equivalence of the named forwarding shape whose later
version re-binds the resolved handle again before executing
(`NamedGet` / `NamedSelect`). -/
theorem sim_namedRunRebind (d : Driver) (c₁ c₂ : Cache) (tx : Tx)
    (ds₁ ds₂ : DriverState) (m : Method) (q : String) (arg : Nat)
    (hsim : Sim c₁ c₂ tx) :
    (TxV1.namedRun d c₁ ds₁ m q arg).1 = (Tx.namedRunRebind d c₂ tx ds₂ m q arg).1 ∧
    Sim (TxV1.namedRun d c₁ ds₁ m q arg).2.1
      (Tx.namedRunRebind d c₂ tx ds₂ m q arg).2.1
      (Tx.namedRunRebind d c₂ tx ds₂ m q arg).2.2.1 := by
  cases htx : alookup q tx.namedStmts with
  | some h₂ =>
    obtain ⟨hk2, hq2, hin2⟩ := hsim.twf.named q h₂ htx
    have hsome2 : (alookup q c₂.namedStmts).isSome = true :=
      hsim.tbelow.2 q (by rw [htx]; rfl)
    have hsome1 : (alookup q c₁.namedStmts).isSome = true := by
      rw [hsim.namedSome q]; exact hsome2
    obtain ⟨h₁, hh1⟩ := Option.isSome_iff_exists.mp hsome1
    obtain ⟨hk1, hq1, hin1⟩ := hsim.wf1.named q h₁ hh1
    unfold TxV1.namedRun Tx.namedRunRebind
    rw [Cache.namedStmt_hit d c₁ ds₁ q h₁ hh1,
      Tx.namedStmt_tx_hit d c₂ tx ds₂ q h₂ htx]
    constructor
    · simp [namedStmtBind, execute, hq1, hq2]
    · exact hsim
  | none =>
    cases hp2 : alookup q c₂.namedStmts with
    | some h₂ =>
      obtain ⟨hk2, hq2, hin2⟩ := hsim.wf2.named q h₂ hp2
      have hsome1 : (alookup q c₁.namedStmts).isSome = true := by
        rw [hsim.namedSome q, hp2]; rfl
      obtain ⟨h₁, hh1⟩ := Option.isSome_iff_exists.mp hsome1
      obtain ⟨hk1, hq1, hin1⟩ := hsim.wf1.named q h₁ hh1
      unfold TxV1.namedRun Tx.namedRunRebind
      rw [Cache.namedStmt_hit d c₁ ds₁ q h₁ hh1,
        Tx.namedStmt_miss_poolhit d c₂ tx ds₂ q h₂ htx hp2]
      constructor
      · simp [namedStmtBind, execute, hq1, hq2]
      · exact ⟨hsim.posSome, hsim.namedSome, hsim.wf1, hsim.wf2,
          Tx.TxWf_cons_named tx q ⟨ds₂.nextId, .named, h₂.query, true⟩
            hsim.twf rfl hq2 rfl,
          Tx.below_cons_named tx c₂ q ⟨ds₂.nextId, .named, h₂.query, true⟩
            hsim.tbelow (by rw [hp2]; rfl)⟩
    | none =>
      have hp1 : alookup q c₁.namedStmts = none := by
        have hps := hsim.namedSome q
        rw [hp2] at hps
        cases hl1 : alookup q c₁.namedStmts with
        | none => rfl
        | some v => rw [hl1] at hps; cases hps
      cases hpf : d.prepNamedFail q with
      | some e =>
        unfold TxV1.namedRun Tx.namedRunRebind
        rw [Cache.namedStmt_miss_err d c₁ ds₁ q e hp1 hpf,
          Tx.namedStmt_miss_fail d c₂ tx ds₂ q e htx hp2 hpf]
        exact ⟨rfl, hsim⟩
      | none =>
        unfold TxV1.namedRun Tx.namedRunRebind
        rw [Cache.namedStmt_miss_ok d c₁ ds₁ q hp1 hpf,
          Tx.namedStmt_miss_create d c₂ tx ds₂ q htx hp2 hpf]
        constructor
        · simp [namedStmtBind, execute]
        · refine ⟨hsim.posSome,
            alookup_isSome_cons_eq q ⟨ds₁.nextId, .named, q, false⟩
              ⟨ds₂.nextId, .named, q, false⟩ c₁.namedStmts c₂.namedStmts
              hsim.namedSome,
            Cache.PoolWf_cons_named c₁ q ⟨ds₁.nextId, .named, q, false⟩
              hsim.wf1 rfl rfl rfl,
            Cache.PoolWf_cons_named c₂ q ⟨ds₂.nextId, .named, q, false⟩
              hsim.wf2 rfl rfl rfl,
            Tx.TxWf_cons_named tx q ⟨ds₂.nextId + 1, .named, q, true⟩
              hsim.twf rfl rfl rfl,
            Tx.below_cons_named tx
              { c₂ with
                  namedStmts := (q, ⟨ds₂.nextId, .named, q, false⟩) :: c₂.namedStmts }
              q ⟨ds₂.nextId + 1, .named, q, true⟩
              (Tx.below_mono tx c₂ _ (fun q' hs => hs)
                (fun q' hs => alookup_isSome_cons q
                  ⟨ds₂.nextId, .named, q, false⟩ c₂.namedStmts q' hs)
                hsim.tbelow)
              (by rw [alookup_cons]; simp)⟩

theorem runOp_sim (d : Driver) (c₁ c₂ : Cache) (tx : Tx) (ds₁ ds₂ : DriverState)
    (op : TxOp) (hop : op.usesStmtxOnNamed = false) (hsim : Sim c₁ c₂ tx) :
    (TxV1.runOp d c₁ ds₁ op).1 = (Tx.runOp d c₂ tx ds₂ op).1 ∧
    Sim (TxV1.runOp d c₁ ds₁ op).2.1 (Tx.runOp d c₂ tx ds₂ op).2.1
      (Tx.runOp d c₂ tx ds₂ op).2.2.1 := by
  cases op with
  | exec q args => exact sim_posRun d c₁ c₂ tx ds₁ ds₂ .exec q args hsim
  | query q args => exact sim_posRun d c₁ c₂ tx ds₁ ds₂ .query q args hsim
  | queryx q args => exact sim_posRun d c₁ c₂ tx ds₁ ds₂ .queryx q args hsim
  | get q args => exact sim_posRun d c₁ c₂ tx ds₁ ds₂ .get q args hsim
  | select q args => exact sim_posRun d c₁ c₂ tx ds₁ ds₂ .select q args hsim
  | namedExec q arg => exact sim_namedRunDirect d c₁ c₂ tx ds₁ ds₂ .exec q arg hsim
  | namedQuery q arg => cases hop
  | namedQueryx q arg => cases hop
  | namedGet q arg => exact sim_namedRunRebind d c₁ c₂ tx ds₁ ds₂ .get q arg hsim
  | namedSelect q arg =>
    exact sim_namedRunRebind d c₁ c₂ tx ds₁ ds₂ .select q arg hsim
  | commit => exact ⟨rfl, hsim⟩
  | rollback => exact ⟨rfl, hsim⟩

theorem runSeq_sim (d : Driver) (ops : List TxOp) :
    ∀ (c₁ c₂ : Cache) (tx : Tx) (ds₁ ds₂ : DriverState), Sim c₁ c₂ tx →
    ops.all (fun op => !op.usesStmtxOnNamed) = true →
    TxV1.runSeq d ops c₁ ds₁ = Tx.runSeq d ops c₂ tx ds₂ := by
  induction ops with
  | nil =>
    intro c₁ c₂ tx ds₁ ds₂ hsim hops
    rfl
  | cons op ops ih =>
    intro c₁ c₂ tx ds₁ ds₂ hsim hops
    rw [List.all_cons, Bool.and_eq_true] at hops
    have hop : op.usesStmtxOnNamed = false := by simpa using hops.1
    obtain ⟨hobs, hsim'⟩ := runOp_sim d c₁ c₂ tx ds₁ ds₂ op hop hsim
    unfold TxV1.runSeq Tx.runSeq
    rw [hobs]
    exact congrArg _ (ih _ _ _ _ _ hsim' hops.2)

theorem Sim_init : Sim Cache.new Cache.new Tx.new := by
  refine ⟨fun q => rfl, fun q => rfl, ⟨?_, ?_⟩, ⟨?_, ?_⟩, ⟨?_, ?_⟩,
    Tx.new_below Cache.new⟩
  all_goals intro q h hh; cases hh

/-- **C10 (amended)**: over any deterministic driver, the two `Tx`
implementations are observationally equivalent — every sequence of
transaction operations returns the same results and errors to the caller —
for all operations except the `NamedQuery` / `NamedQueryx` family, where the
earlier version passes the resolved named handle to the positional transaction
re-bind `Stmtx` (whose type switch rejects named statements) while the later
version executes the named statement. -/
theorem claim_C10_tx_versions_equivalent (d : Driver) (ops : List TxOp)
    (ds₁ ds₂ : DriverState)
    (hops : ops.all (fun op => !op.usesStmtxOnNamed) = true) :
    TxV1.runSeq d ops Cache.new ds₁ = Tx.runSeq d ops Cache.new Tx.new ds₂ :=
  runSeq_sim d ops Cache.new Cache.new Tx.new ds₁ ds₂ Sim_init hops

/-- Counterexample to C10 as stated: a single `NamedQuery` panics in the
earlier version (named handle fed to the positional `Stmtx` re-bind) but
succeeds in the later one, so the two versions are not observationally
equivalent on the full common surface. -/
theorem claim_C10_counterexample :
    TxV1.runSeq dOK [.namedQuery "q" 5] Cache.new dsEmpty = [.panicked] ∧
    Tx.runSeq dOK [.namedQuery "q" 5] Cache.new Tx.new dsEmpty = [.ok 0] ∧
    TxV1.runSeq dOK [.namedQuery "q" 5] Cache.new dsEmpty
      ≠ Tx.runSeq dOK [.namedQuery "q" 5] Cache.new Tx.new dsEmpty := by
  decide

/-- Witness for the amended C10: a mixed sequence (positional exec twice,
named get, commit) produces identical observation streams in both
versions. -/
theorem claim_C10_tx_versions_equivalent_witness :
    TxV1.runSeq dOK [.exec "q" [7], .namedGet "q" 5, .exec "q" [8], .commit]
        Cache.new dsEmpty
      = Tx.runSeq dOK [.exec "q" [7], .namedGet "q" 5, .exec "q" [8], .commit]
        Cache.new Tx.new dsEmpty :=
  claim_C10_tx_versions_equivalent dOK
    [.exec "q" [7], .namedGet "q" 5, .exec "q" [8], .commit] dsEmpty dsEmpty
    (by decide)

end Sqlxcache
